import Mathlib

/-!
# Verification of the age-system migration module

A shallow embedding of `src/modules/migration.js` (Foundry VTT "AGE System"
schema migration).  JavaScript records are modelled by the inductive type
`Value`; fallible evaluation (TypeError on property access of
`null`/`undefined`, ReferenceError on reading an undeclared binding) is
modelled with `Except JSError`.  Patches (`updateData` objects) are ordered
association lists from dotted field paths to values, mirroring JS object
key-insertion order.  The host's patch application (`mergeObject` /
`Entity.update`) is modelled by `applyPatch`: the dotted keys are first
expanded into a nested object (sequential `setProperty` into a fresh object,
in key order) and the expansion is then merged recursively into the target,
patch values winning on collision and plain objects merging recursively.
The orchestrator (`migrateWorld`) and the compendium walker
(`migrateCompendium`) are modelled as pure functions producing a trace of
host-interaction events, parameterised by a `Host` oracle giving the outcome
of each host write and the resolvability of token actors.
-/

set_option autoImplicit false

namespace AgeSystem

/-- A JavaScript value as used by the migration module: `undefined`, `null`,
booleans, numbers, strings, plain objects (ordered field lists) and arrays. -/
inductive Value where
  | undefVal : Value
  | null : Value
  | bool : Bool → Value
  | num : Int → Value
  | str : String → Value
  | obj : List (String × Value) → Value
  | arr : List Value → Value
deriving Repr

/-- A JavaScript runtime exception, as thrown by the migration code. -/
inductive JSError where
  | referenceError : String → JSError
  | typeError : String → JSError
deriving Repr, DecidableEq

/-- The `message` property of a JS exception (used when the catch blocks
re-annotate the error). -/
def JSError.message : JSError → String
  | .referenceError n => n ++ " is not defined"
  | .typeError m => m

/-- First-match lookup in an ordered field list (JS own-property lookup). -/
def lookupField : List (String × Value) → String → Option Value
  | [], _ => none
  | (k', v) :: rest, k => if k' = k then some v else lookupField rest k

/-- JS property assignment on an object's field list: an existing key keeps
its position and gets the new value, a new key is appended (JS key-insertion
order). -/
def setField : List (String × Value) → String → Value → List (String × Value)
  | [], k, v => [(k, v)]
  | (k', v') :: rest, k, v =>
      if k' = k then (k, v) :: rest else (k', v') :: setField rest k v

/-- JS truthiness. -/
def truthy : Value → Bool
  | .undefVal => false
  | .null => false
  | .bool b => b
  | .num n => n ≠ 0
  | .str s => s ≠ ""
  | .obj _ => true
  | .arr _ => true

/-- `v === "s"` for a string literal `s`. -/
def isStr : Value → String → Bool
  | .str s, t => s = t
  | _, _ => false

/-- The subtype guard of `_addItemModSpeed`:
`item.type === "focus" || ... || item.type === "stunts"`. -/
def isExcludedType (v : Value) : Bool :=
  isStr v "focus" || isStr v "honorifics" || isStr v "relationship"
    || isStr v "membership" || isStr v "stunts"

/-- `typeof v === "object"` (true for `null`, plain objects and arrays). -/
def typeofObject : Value → Bool
  | .null => true
  | .obj _ => true
  | .arr _ => true
  | _ => false

/-- JS property read `v[k]`: throws a TypeError on `undefined`/`null`,
returns the own property (or `undefined`) on objects, and `undefined` on
other primitives and arrays (the module never reads inherited properties
besides methods, and never reads array indices by name). -/
def Value.get : Value → String → Except JSError Value
  | .undefVal, k => .error (.typeError ("Cannot read property " ++ k))
  | .null, k => .error (.typeError ("Cannot read property " ++ k))
  | .obj fs, k => .ok ((lookupField fs k).getD .undefVal)
  | _, _ => .ok .undefVal

/-- The total own-property getter on objects (the value `Value.get` wraps in
`.ok` for a non-`null`, non-`undefined` receiver). -/
def getv (v : Value) (k : String) : Value :=
  match v with
  | .obj fs => (lookupField fs k).getD .undefVal
  | _ => .undefVal

/-- `v.hasOwnProperty(k)` for a value on which the method call itself does
not throw (the module only reaches this with a truthy object). -/
def hasOwn : Value → String → Bool
  | .obj fs, k => (lookupField fs k).isSome
  | _, _ => false

/-- JS property assignment `v[k] = x` as an expression on a copied record.
Strict-mode semantics: assignment to a property of `undefined`/`null` or of
a primitive throws TypeError.  Assignment on an array value would attach an
expando property our array model cannot carry; the module never does this on
the inputs the theorems consider, and we keep the array unchanged. -/
def assignKey (v : Value) (k : String) (x : Value) : Except JSError Value :=
  match v with
  | .obj fs => .ok (.obj (setField fs k x))
  | .arr l => .ok (.arr l)
  | _ => .error (.typeError ("Cannot create property " ++ k))

/-- Destructure a JS array value, as the `.map(...)` call sites do: a
non-array receiver makes the method call throw a TypeError. -/
def asArray (msg : String) : Value → Except JSError (List Value)
  | .arr l => .ok l
  | _ => .error (.typeError msg)

/-- An `updateData` patch: an ordered association list from dotted field
paths to values (a JS object used as a dictionary). -/
abbrev Patch := List (String × Value)

/-- `updateData[k] = v` on a patch. -/
def setKey (p : Patch) (k : String) (v : Value) : Patch :=
  setField p k v

/-- `isObjectEmpty(updateData)`. -/
def isObjectEmpty (p : Patch) : Bool :=
  p.isEmpty

/-! ## The host's dotted-path patch merge

`mergeObject(original, other)` (and the host-side `Entity.update`) first
expands the dotted keys of `other` into a nested object — `setProperty` into
a fresh object, processed in key order, a later whole-prefix key replacing
what earlier keys built — and then merges the expansion into `original`
recursively: when both sides hold plain objects the fields merge
recursively, otherwise the patch value overwrites. -/

/-- `setProperty(target, parts, v)` on the freshly-built expansion object:
walk the path, creating `{}` for a missing intermediate, descending into an
existing object intermediate, and dropping the write if an intermediate is
not an object (the module's patches never hit that case). -/
def setPath : Value → List String → Value → Value
  | _, [], v => v
  | base, k :: rest, v =>
      match base with
      | .obj fs =>
          match rest, lookupField fs k with
          | [], _ => .obj (setField fs k v)
          | _, some (Value.obj fo) => .obj (setField fs k (setPath (.obj fo) rest v))
          | _, some _ => .obj fs
          | _, none => .obj (setField fs k (setPath (.obj []) rest v))
      | other => other

/-- Split a character list at the dots (the recursion behind `key.split(".")`). -/
def splitDotsAux : List Char → List Char → List String
  | [], acc => [String.mk acc.reverse]
  | c :: cs, acc =>
      if c = '.' then String.mk acc.reverse :: splitDotsAux cs []
      else splitDotsAux cs (c :: acc)

/-- `key.split(".")` on a dotted field path (structural, so that expansion
of concrete patches computes definitionally). -/
def splitDots (s : String) : List String :=
  splitDotsAux s.data []

/-- `expandObject(updateData)`: fold the dotted keys, in order, into a fresh
object. -/
def expandPatch (p : Patch) : Value :=
  p.foldl (fun acc kv => setPath acc (splitDots kv.1) kv.2) (.obj [])

mutual

/-- How one incoming field merges over the (optional) existing value at the
same key: two plain objects merge recursively, anything else is overwritten
by the incoming value. -/
def mergeVal : Option Value → Value → Value
  | some (Value.obj fo), Value.obj fv => Value.obj (mergeList fo fv)
  | _, v => v
termination_by _ v => sizeOf v

/-- The recursive field-list merge underlying `mergeObject`: fields of the
second list are folded into the first via `mergeVal`. -/
def mergeList (fa : List (String × Value)) : List (String × Value) → List (String × Value)
  | [] => fa
  | (k, v) :: rest => mergeList (setField fa k (mergeVal (lookupField fa k) v)) rest
termination_by l => sizeOf l

end

/-- `mergeObject(a, b)` on already-expanded values. -/
def deepMerge (a b : Value) : Value :=
  match a, b with
  | .obj fa, .obj fb => .obj (mergeList fa fb)
  | _, _ => b

/-- Apply an `updateData` patch to a record the way the host does:
expand the dotted keys, then merge recursively with patch values winning. -/
def applyPatch (a : Value) (p : Patch) : Value :=
  deepMerge a (expandPatch p)

/-! ## The migration patch functions (`src/modules/migration.js`) -/

/-- The condition-flag list of `_addActorConditions` (note: the source list
has thirteen entries and spells `hindred`). -/
def conditionsList : List String :=
  ["blinded", "deafened", "exhausted", "fatigued", "freefalling", "helpless", "hindred",
   "prone", "restrained", "injured", "wounded", "unconscious", "dying"]

/-- `_addActorConditions(actor, updateData)`.  For a `char` actor with a
truthy object `data.conditions` the function returns `updateData` unchanged
(whether or not the flag list is complete — the `complete` flag only guards
an early return).  In every branch that reaches the rebuild loop the first
loop iteration evaluates the undeclared binding `udpateData` (a typo for
`updateData`) and throws a ReferenceError; the rebuild branch is reached
when `data.conditions` is falsy, or present but not `typeof "object"` (it is
then deleted from the actor and re-tested). -/
def _addActorConditions (actor : Value) (updateData : Patch) : Except JSError Patch := do
  let ty ← actor.get "type"
  if ¬ isStr ty "char" then return updateData
  let data ← actor.get "data"
  let conds ← data.get "conditions"
  if truthy conds then
    if typeofObject conds then
      let complete := conditionsList.all (fun c => hasOwn conds c)
      if complete then return updateData
      else
        -- falls through; `actor.data.conditions` is still truthy, so the
        -- rebuild guard `!actor.data.conditions` fails and nothing is added
        return updateData
    else
      -- `delete actor.data.conditions`, after which the rebuild guard
      -- passes, `updateData["data.conditions"] = {}` is set, and the first
      -- loop iteration throws on the misspelled `udpateData`
      throw (.referenceError "udpateData")
  else
    -- conditions falsy: the rebuild guard passes and the loop throws
    throw (.referenceError "udpateData")

/-- `_addVehicleCustomDmg(actor, updateData)`.  For a `vehicle` actor the
member access `actor.data.hasOwnProperty` is evaluated first (throwing a
TypeError when `data` is `null`/`undefined`), after which the call argument
`customSideswipeDmg` — an undeclared identifier, the quotes are missing in
the source — throws a ReferenceError. -/
def _addVehicleCustomDmg (actor : Value) (updateData : Patch) : Except JSError Patch := do
  let ty ← actor.get "type"
  if ¬ isStr ty "vehicle" then return updateData
  let data ← actor.get "data"
  let _ ← data.get "hasOwnProperty"
  throw (.referenceError "customSideswipeDmg")

/-- `_addItemModSpeed(item, updateData)`. -/
def _addItemModSpeed (item : Value) (updateData : Patch) : Except JSError Patch := do
  let ty ← item.get "type"
  if isExcludedType ty then return updateData
  let data ← item.get "data"
  let itemMods ← data.get "itemMods"
  let speed ← itemMods.get "speed"
  if truthy speed then return updateData
  return setKey (setKey (setKey updateData
    "data.itemMods.speed" (.obj []))
    "data.itemMods.speed.isActive" (.bool false))
    "data.itemMods.speed.value" (.num 0)

/-- `_addExtraPowerData(item, updateData)`. -/
def _addExtraPowerData (item : Value) (updateData : Patch) : Except JSError Patch := do
  let ty ← item.get "type"
  if ¬ isStr ty "power" then return updateData
  let data ← item.get "data"
  let af ← data.get "ablFatigue"
  if truthy af then return updateData
  return setKey (setKey (setKey (setKey (setKey (setKey (setKey (setKey (setKey (setKey updateData
    "data.causeHealing" (.bool false))
    "data.ablFatigue" (.str "will"))
    "data.hasTest" (.bool false))
    "data.testAbl" (.str "will"))
    "data.testFocus" (.str ""))
    "data.damageResisted" (.obj []))
    "data.damageResisted.nrDice" (.num 1))
    "data.damageResisted.diceType" (.num 6))
    "data.damageResisted.extraValue" (.num 0))
    "data.damageResisted.dmgAbl" (.str "will")

/-- `_addItemValidResistedDmgAbl(item, updateData)`. -/
def _addItemValidResistedDmgAbl (item : Value) (updateData : Patch) : Except JSError Patch := do
  let ty ← item.get "type"
  if ¬ isStr ty "power" then return updateData
  let data ← item.get "data"
  let dr ← data.get "damageResisted"
  if truthy dr then
    let dmgAbl ← dr.get "dmgAbl"
    if ¬ truthy dmgAbl then
      return setKey updateData "data.damageResisted.dmgAbl" (.str "will")
    else return updateData
  else return updateData

/-- `_addItemForceAbl(item, updateData)`. -/
def _addItemForceAbl (item : Value) (updateData : Patch) : Except JSError Patch := do
  let ty ← item.get "type"
  if ¬ isStr ty "power" then return updateData
  let data ← item.get "data"
  let fa ← data.get "itemForceAbl"
  if truthy fa then return updateData
  return setKey updateData "data.itemForceAbl" (.str "will")

/-- `migrateItemData(item)`: thread one `updateData` through the four item
helpers. -/
def migrateItemData (item : Value) : Except JSError Patch := do
  let u1 ← _addItemModSpeed item []
  let u2 ← _addItemValidResistedDmgAbl item u1
  let u3 ← _addExtraPowerData item u2
  let u4 ← _addItemForceAbl item u3
  return u4

/-- An item avoids the `data.damageResisted.dmgAbl` key collision: in one
run of `migrateItemData`, not both `_addItemValidResistedDmgAbl` and
`_addExtraPowerData` contribute (each one's stand-alone contribution being
empty exactly when it does not fire).  When both fire, the shared
`data.damageResisted.dmgAbl` key set by the first keeps its early insertion
position, the later `data.damageResisted = {}` entry wipes it during
dotted-key expansion, and the merged record ends up without `dmgAbl` — so a
second run is not empty. -/
def noDmgAblClash (item : Value) : Prop :=
  _addItemValidResistedDmgAbl item [] = .ok [] ∨ _addExtraPowerData item [] = .ok []

/-- The dotted keys only the three power-only helpers ever contribute. -/
def powerOnlyKeys : List String :=
  ["data.causeHealing", "data.ablFatigue", "data.hasTest", "data.testAbl", "data.testFocus",
   "data.damageResisted", "data.damageResisted.nrDice", "data.damageResisted.diceType",
   "data.damageResisted.extraValue", "data.damageResisted.dmgAbl", "data.itemForceAbl"]

/-- The three-key contribution of `_addItemModSpeed` when it fires. -/
def speedKeys : Patch :=
  [("data.itemMods.speed", .obj []),
   ("data.itemMods.speed.isActive", .bool false),
   ("data.itemMods.speed.value", .num 0)]

/-- The single-key contribution of `_addItemValidResistedDmgAbl` when it
fires (also the last key of `_addExtraPowerData`). -/
def dmgAblKey : Patch :=
  [("data.damageResisted.dmgAbl", .str "will")]

/-- The first nine keys of `_addExtraPowerData`'s contribution (its tenth
key is `dmgAblKey`, which collapses into an in-place update when
`_addItemValidResistedDmgAbl` already fired). -/
def extraKeys : Patch :=
  [("data.causeHealing", .bool false),
   ("data.ablFatigue", .str "will"),
   ("data.hasTest", .bool false),
   ("data.testAbl", .str "will"),
   ("data.testFocus", .str ""),
   ("data.damageResisted", .obj []),
   ("data.damageResisted.nrDice", .num 1),
   ("data.damageResisted.diceType", .num 6),
   ("data.damageResisted.extraValue", .num 0)]

/-- The single-key contribution of `_addItemForceAbl` when it fires. -/
def forceKey : Patch :=
  [("data.itemForceAbl", .str "will")]

/-- The shape of every successful `migrateItemData` result, as a function of
which of the four helpers fired (speed, dmgAbl fix, ablFatigue bundle,
itemForceAbl). -/
def itemPatchOf (bS bV bE bF : Bool) : Patch :=
  (if bS then speedKeys else []) ++ (if bV then dmgAblKey else [])
    ++ (if bE then extraKeys ++ (if bV then [] else dmgAblKey) else [])
    ++ (if bF then forceKey else [])

/-- The `data`-level fields of the expansion of `itemPatchOf bS bV bE bF`
(for the collision-free, not-all-false combinations). -/
def dataFieldsOf (bS bV bE bF : Bool) : List (String × Value) :=
  (if bS then [("itemMods", Value.obj [("speed",
      Value.obj [("isActive", Value.bool false), ("value", Value.num 0)])])] else [])
  ++ (if bV then [("damageResisted", Value.obj [("dmgAbl", Value.str "will")])] else [])
  ++ (if bE then [("causeHealing", Value.bool false),
      ("ablFatigue", Value.str "will"),
      ("hasTest", Value.bool false),
      ("testAbl", Value.str "will"),
      ("testFocus", Value.str ""),
      ("damageResisted", Value.obj [("nrDice", Value.num 1), ("diceType", Value.num 6),
        ("extraValue", Value.num 0), ("dmgAbl", Value.str "will")])] else [])
  ++ (if bF then [("itemForceAbl", Value.str "will")] else [])

/-- The `actor.items.map(...)` loop of `migrateActorData`: migrate each
owned item, merge non-empty item patches into the item
(`mergeObject(i, itemUpdate, {inplace: false})`), and record whether any
item produced an update. -/
def migrateOwnedItems : List Value → Except JSError (List Value × Bool)
  | [] => .ok ([], false)
  | i :: rest => do
      let u ← migrateItemData i
      let (rest', hasRest) ← migrateOwnedItems rest
      if isObjectEmpty u then return (i :: rest', hasRest)
      else return (applyPatch i u :: rest', true)

/-- `migrateActorData(actor)`. -/
def migrateActorData (actor : Value) : Except JSError Patch := do
  let u1 ← _addActorConditions actor []
  let u2 ← _addVehicleCustomDmg actor u1
  let items ← actor.get "items"
  if ¬ truthy items then return u2
  let is ← asArray "actor.items.map is not a function" items
  let (is', hasUpd) ← migrateOwnedItems is
  if hasUpd then return setKey u2 "items" (.arr is') else return u2

/-- One token of the `scene.tokens.map(...)` loop of `migrateSceneData`.
`hasActor` abstracts `new Token(t); token.actor` — whether the host can
resolve the token's backing actor. -/
def migrateToken (hasActor : Value → Bool) (t : Value) : Except JSError Value := do
  let actorId ← t.get "actorId"
  if ¬ truthy actorId then assignKey t "actorData" (.obj [])
  else do
    let actorLink ← t.get "actorLink"
    if truthy actorLink then assignKey t "actorData" (.obj [])
    else do
      let actorData ← t.get "actorData"
      let adData ← actorData.get "data"
      if ¬ truthy adData then assignKey t "actorData" (.obj [])
      else if ¬ hasActor t then do
        let t1 ← assignKey t "actorId" .null
        assignKey t1 "actorData" (.obj [])
      else do
        let ud ← migrateActorData actorData
        assignKey t "actorData" (applyPatch actorData ud)

/-- The `tokens.map(...)` loop of `migrateSceneData`: apply the token
transform in order, an exception aborting the map. -/
def mapTokens (f : Value → Except JSError Value) : List Value → Except JSError (List Value)
  | [] => .ok []
  | t :: ts => do
      let r ← f t
      let rs ← mapTokens f ts
      return r :: rs

/-- `migrateSceneData(scene)`: always returns a patch with the single key
`tokens` holding the full rewritten token list (`duplicate` is a deep copy,
identity in this pure model; a non-array `scene.tokens` makes the
`duplicate`/`map` step throw). -/
def migrateSceneData (hasActor : Value → Bool) (scene : Value) : Except JSError Patch := do
  let tokens ← scene.get "tokens"
  let ts ← asArray "scene.tokens is not an array" tokens
  let ts' ← mapTokens (migrateToken hasActor) ts
  return [("tokens", .arr ts')]

/-! ## Orchestrator and compendium walker as event traces

`migrateWorld` and `migrateCompendium` only interleave the pure patch
functions with host calls.  We model a run as the list of host-interaction
events it performs, with a `Host` oracle supplying the outcome of each host
write and the resolvability of token actors. -/

/-- A world entity as enumerated by the orchestrator: its display name, its
`_id`, and its `data` record. -/
structure Entity where
  name : String
  id : String
  data : Value

/-- A compendium pack handle: `collection`, `metadata.package`,
`metadata.entity`, the `locked` flag, and the content returned by
`getContent()` after the host-side `migrate()`. -/
structure Pack where
  collection : String
  packageName : String
  entity : String
  locked : Bool
  content : List Entity

/-- The world state the orchestrator enumerates. -/
structure World where
  actors : List Entity
  items : List Entity
  scenes : List Entity
  packs : List Pack

/-- One observable host interaction. -/
inductive Event where
  | notify : String → Event
  | logInfo : String → Event
  | logError : String → Event
  | entityUpdate : String → Patch → Event
  | packConfigure : String → Bool → Event
  | packMigrate : String → Event
  | packUpdateEntity : String → Patch → Event
  | setSetting : String → String → Event

/-- The host oracle: outcomes of `entity.update` and `pack.updateEntity`
calls, token-actor resolvability, and the system version string. -/
structure Host where
  updateResult : String → Patch → Except JSError Unit
  packUpdateResult : String → Patch → Except JSError Unit
  hasActor : Value → Bool
  version : String

/-- One iteration of the world-Actor loop of `migrateWorld`: compute the
patch, skip on empty, log and update on non-empty; any exception from the
computation or the update is caught, annotated with the actor name, and
logged. -/
def processActor (h : Host) (a : Entity) : List Event :=
  match migrateActorData a.data with
  | .error e =>
      [.logError ("Failed AGE System migration for Actor " ++ a.name ++ ": " ++ e.message)]
  | .ok p =>
      if isObjectEmpty p then []
      else
        match h.updateResult a.name p with
        | .ok _ => [.logInfo ("Migrating Actor entity " ++ a.name), .entityUpdate a.name p]
        | .error e =>
            [.logInfo ("Migrating Actor entity " ++ a.name), .entityUpdate a.name p,
             .logError ("Failed AGE System migration for Actor " ++ a.name ++ ": " ++ e.message)]

/-- One iteration of the world-Item loop of `migrateWorld`. -/
def processItem (h : Host) (i : Entity) : List Event :=
  match migrateItemData i.data with
  | .error e =>
      [.logError ("Failed AGE System migration for Item " ++ i.name ++ ": " ++ e.message)]
  | .ok p =>
      if isObjectEmpty p then []
      else
        match h.updateResult i.name p with
        | .ok _ => [.logInfo ("Migrating Item entity " ++ i.name), .entityUpdate i.name p]
        | .error e =>
            [.logInfo ("Migrating Item entity " ++ i.name), .entityUpdate i.name p,
             .logError ("Failed AGE System migration for Item " ++ i.name ++ ": " ++ e.message)]

/-- One iteration of the world-Scene loop of `migrateWorld` (note the
source annotates scene failures with the lowercase "age-system" prefix). -/
def processScene (h : Host) (s : Entity) : List Event :=
  match migrateSceneData h.hasActor s.data with
  | .error e =>
      [.logError ("Failed age-system migration for Scene " ++ s.name ++ ": " ++ e.message)]
  | .ok p =>
      if isObjectEmpty p then []
      else
        match h.updateResult s.name p with
        | .ok _ => [.logInfo ("Migrating Scene entity " ++ s.name), .entityUpdate s.name p]
        | .error e =>
            [.logInfo ("Migrating Scene entity " ++ s.name), .entityUpdate s.name p,
             .logError ("Failed age-system migration for Scene " ++ s.name ++ ": " ++ e.message)]

/-- The `switch (entity)` of `migrateCompendium`: which patch function a
compendium entry goes through (the unreachable default keeps the initial
empty `updateData`). -/
def entryPatch (h : Host) (entityType : String) (e : Entity) : Except JSError Patch :=
  match entityType with
  | "Actor" => migrateActorData e.data
  | "Item" => migrateItemData e.data
  | "Scene" => migrateSceneData h.hasActor e.data
  | _ => .ok []

/-- One iteration of the per-entry loop of `migrateCompendium`: compute the
patch, `continue` on empty, otherwise tag it with the entry's `_id` and
submit it via `pack.updateEntity`; any exception is caught, annotated with
entry name and pack, and logged. -/
def processEntry (h : Host) (packName entityType : String) (e : Entity) : List Event :=
  match entryPatch h entityType e with
  | .error err =>
      [.logError ("Failed age-system system migration for entity " ++ e.name ++
        " in pack " ++ packName ++ ": " ++ err.message)]
  | .ok p =>
      if isObjectEmpty p then []
      else
        let p' := setKey p "_id" (.str e.id)
        match h.packUpdateResult packName p' with
        | .ok _ =>
            [.packUpdateEntity packName p',
             .logInfo ("Migrated " ++ entityType ++ " entity " ++ e.name ++
               " in Compendium " ++ packName)]
        | .error err =>
            [.packUpdateEntity packName p',
             .logError ("Failed age-system system migration for entity " ++ e.name ++
               " in pack " ++ packName ++ ": " ++ err.message)]

/-- Whether a pack's declared entity type is one the walker supports. -/
def supportedEntity (e : String) : Bool :=
  e = "Actor" ∨ e = "Item" ∨ e = "Scene"

/-- `migrateCompendium(pack)`: skip unsupported packs; otherwise record the
original lock state, unlock, delegate the host-side `pack.migrate()`,
process every entry, and finally restore the original lock state. -/
def migrateCompendium (h : Host) (p : Pack) : List Event :=
  if ¬ supportedEntity p.entity then []
  else
    [.packConfigure p.collection false, .packMigrate p.collection]
    ++ p.content.flatMap (processEntry h p.collection p.entity)
    ++ [.packConfigure p.collection p.locked,
        .logInfo ("Migrated all " ++ p.entity ++ " entities from Compendium " ++ p.collection)]

/-- `migrateWorld()`: the opening notification, the three world loops, the
world-pack loop, the settings write and the closing notification. -/
def migrateWorld (h : Host) (w : World) : List Event :=
  [.notify ("Applying AGE System Migration for version " ++ h.version ++
    ". Please be patient and do not close your game or shut down your server.")]
  ++ w.actors.flatMap (processActor h)
  ++ w.items.flatMap (processItem h)
  ++ w.scenes.flatMap (processScene h)
  ++ w.packs.flatMap (fun p =>
      if p.packageName ≠ "world" then []
      else if ¬ supportedEntity p.entity then []
      else migrateCompendium h p)
  ++ [.setSetting "systemMigrationVersion" h.version,
      .notify ("AGE System Migration to version " ++ h.version ++ " completed!")]

/-! ## Basic lemmas on field lists and the merge -/

theorem lookupField_setField_self (fs : List (String × Value)) (k : String) (v : Value) :
    lookupField (setField fs k v) k = some v := by
  induction fs with
  | nil => simp [setField, lookupField]
  | cons kv rest ih =>
      obtain ⟨k', v'⟩ := kv
      by_cases h : k' = k
      · subst h; simp [setField, lookupField]
      · simp [setField, lookupField, h, ih]

theorem lookupField_setField_ne (fs : List (String × Value)) (k k' : String) (v : Value)
    (h : k ≠ k') : lookupField (setField fs k v) k' = lookupField fs k' := by
  induction fs with
  | nil => simp [setField, lookupField, h]
  | cons kv rest ih =>
      obtain ⟨k1, v1⟩ := kv
      by_cases h1 : k1 = k
      · subst h1; simp [setField, lookupField, h]
      · by_cases h2 : k1 = k'
        · subst h2; simp [setField, lookupField, h1]
        · simp [setField, lookupField, h1, h2, ih]

theorem mergeList_nil (fa : List (String × Value)) : mergeList fa [] = fa := by
  simp [mergeList]

theorem mergeList_cons (fa : List (String × Value)) (k : String) (v : Value)
    (rest : List (String × Value)) :
    mergeList fa ((k, v) :: rest) =
      mergeList (setField fa k (mergeVal (lookupField fa k) v)) rest := by
  rw [mergeList]

theorem mergeVal_obj_obj (fo fv : List (String × Value)) :
    mergeVal (some (.obj fo)) (.obj fv) = .obj (mergeList fo fv) := by
  simp [mergeVal]

theorem mergeVal_none (v : Value) : mergeVal none v = v := by
  cases v <;> simp [mergeVal]

theorem mergeVal_old_undef (v : Value) : mergeVal (some .undefVal) v = v := by
  cases v <;> simp [mergeVal]

theorem mergeVal_old_null (v : Value) : mergeVal (some .null) v = v := by
  cases v <;> simp [mergeVal]

theorem mergeVal_old_bool (b : Bool) (v : Value) : mergeVal (some (.bool b)) v = v := by
  cases v <;> simp [mergeVal]

theorem mergeVal_old_num (n : Int) (v : Value) : mergeVal (some (.num n)) v = v := by
  cases v <;> simp [mergeVal]

theorem mergeVal_old_str (s : String) (v : Value) : mergeVal (some (.str s)) v = v := by
  cases v <;> simp [mergeVal]

theorem mergeVal_old_arr (l : List Value) (v : Value) : mergeVal (some (.arr l)) v = v := by
  cases v <;> simp [mergeVal]

theorem mergeVal_new_undef (o : Option Value) : mergeVal o .undefVal = .undefVal := by
  rcases o with _ | u
  · simp [mergeVal]
  · cases u <;> simp [mergeVal]

theorem mergeVal_new_null (o : Option Value) : mergeVal o .null = .null := by
  rcases o with _ | u
  · simp [mergeVal]
  · cases u <;> simp [mergeVal]

theorem mergeVal_new_bool (o : Option Value) (b : Bool) : mergeVal o (.bool b) = .bool b := by
  rcases o with _ | u
  · simp [mergeVal]
  · cases u <;> simp [mergeVal]

theorem mergeVal_new_num (o : Option Value) (n : Int) : mergeVal o (.num n) = .num n := by
  rcases o with _ | u
  · simp [mergeVal]
  · cases u <;> simp [mergeVal]

theorem mergeVal_new_str (o : Option Value) (s : String) : mergeVal o (.str s) = .str s := by
  rcases o with _ | u
  · simp [mergeVal]
  · cases u <;> simp [mergeVal]

theorem mergeVal_new_arr (o : Option Value) (l : List Value) : mergeVal o (.arr l) = .arr l := by
  rcases o with _ | u
  · simp [mergeVal]
  · cases u <;> simp [mergeVal]

/-- A key absent from the incoming field list is untouched by the merge. -/
theorem lookupField_mergeList_of_notin (fb fa : List (String × Value)) (k : String)
    (h : lookupField fb k = none) :
    lookupField (mergeList fa fb) k = lookupField fa k := by
  induction fb generalizing fa with
  | nil => simp [mergeList_nil]
  | cons kv rest ih =>
      obtain ⟨k1, v1⟩ := kv
      rw [mergeList_cons]
      simp only [lookupField] at h
      by_cases h1 : k1 = k
      · simp [h1] at h
      · simp only [h1, if_false] at h
        rw [ih _ h, lookupField_setField_ne _ _ _ _ h1]

/-! ## Monad and property-access lemmas -/

theorem ok_bind {α β : Type} (a : α) (f : α → Except JSError β) :
    (Except.ok a >>= f) = f a := rfl

theorem error_bind {α β : Type} (e : JSError) (f : α → Except JSError β) :
    ((Except.error e : Except JSError α) >>= f) = Except.error e := rfl

theorem pure_ok {α : Type} (a : α) : (pure a : Except JSError α) = Except.ok a := rfl

theorem get_obj (fs : List (String × Value)) (k : String) :
    Value.get (.obj fs) k = .ok (getv (.obj fs) k) := by
  simp [Value.get, getv]

theorem get_eq_ok (u : Value) (k : String) (h1 : u ≠ .undefVal) (h2 : u ≠ .null) :
    u.get k = .ok (getv u k) := by
  cases u <;> simp_all [Value.get, getv]

theorem truthy_ne_undef {u : Value} (h : truthy u = true) : u ≠ .undefVal := by
  cases u <;> simp_all [truthy]

theorem truthy_ne_null {u : Value} (h : truthy u = true) : u ≠ .null := by
  cases u <;> simp_all [truthy]

theorem excluded_not_power {v : Value} (h : isExcludedType v = true) :
    isStr v "power" = false := by
  cases v with
  | str s =>
      simp only [isExcludedType, isStr, Bool.or_eq_true, decide_eq_true_eq] at h
      rcases h with (((h | h) | h) | h) | h <;> subst h <;> rfl
  | undefVal => simp [isExcludedType, isStr] at h
  | null => simp [isExcludedType, isStr] at h
  | bool b => simp [isExcludedType, isStr] at h
  | num n => simp [isExcludedType, isStr] at h
  | obj fs => simp [isExcludedType, isStr] at h
  | arr l => simp [isExcludedType, isStr] at h

/-! ## Inversion lemmas: what a successful helper run tells us -/

theorem addItemModSpeed_ok_inv (item : Value) (u u' : Patch)
    (h : _addItemModSpeed item u = .ok u') :
    ∃ fs, item = .obj fs ∧
      ((isExcludedType (getv item "type") = true ∧ u' = u) ∨
        (isExcludedType (getv item "type") = false ∧
          ∃ ds, getv item "data" = .obj ds ∧
            getv (.obj ds) "itemMods" ≠ .undefVal ∧ getv (.obj ds) "itemMods" ≠ .null ∧
            ((truthy (getv (getv (.obj ds) "itemMods") "speed") = true ∧ u' = u) ∨
              (truthy (getv (getv (.obj ds) "itemMods") "speed") = false ∧
                u' = setKey (setKey (setKey u
                  "data.itemMods.speed" (.obj []))
                  "data.itemMods.speed.isActive" (.bool false))
                  "data.itemMods.speed.value" (.num 0))))) := by
  cases item with
  | undefVal => simp [_addItemModSpeed, Value.get, error_bind] at h
  | null => simp [_addItemModSpeed, Value.get, error_bind] at h
  | bool b =>
      simp [_addItemModSpeed, Value.get, isExcludedType, isStr, ok_bind, error_bind] at h
  | num n =>
      simp [_addItemModSpeed, Value.get, isExcludedType, isStr, ok_bind, error_bind] at h
  | str s =>
      simp [_addItemModSpeed, Value.get, isExcludedType, isStr, ok_bind, error_bind] at h
  | arr l =>
      simp [_addItemModSpeed, Value.get, isExcludedType, isStr, ok_bind, error_bind] at h
  | obj fs =>
      refine ⟨fs, rfl, ?_⟩
      simp only [_addItemModSpeed] at h
      rw [get_obj, ok_bind] at h
      by_cases hexcl : isExcludedType (getv (.obj fs) "type") = true
      · rw [if_pos hexcl, pure_ok] at h
        exact Or.inl ⟨hexcl, ((Except.ok.injEq _ _).mp h).symm⟩
      · rw [Bool.not_eq_true] at hexcl
        rw [if_neg (by simp [hexcl]), get_obj, ok_bind] at h
        refine Or.inr ⟨hexcl, ?_⟩
        rcases hd : lookupField fs "data" with _ | w
        · rw [show getv (.obj fs) "data" = .undefVal by simp [getv, hd]] at h
          simp [Value.get, error_bind] at h
        · rw [show getv (.obj fs) "data" = w by simp [getv, hd]] at h
          cases w with
          | obj ds =>
              rw [get_obj, ok_bind] at h
              refine ⟨ds, by simp [getv, hd], ?_⟩
              rcases hmm : lookupField ds "itemMods" with _ | u
              · rw [show getv (.obj ds) "itemMods" = .undefVal by simp [getv, hmm]] at h
                simp [Value.get, error_bind] at h
              · have hgu : getv (.obj ds) "itemMods" = u := by simp [getv, hmm]
                rw [hgu] at h
                cases u with
                | undefVal => simp [Value.get, error_bind] at h
                | null => simp [Value.get, error_bind] at h
                | bool b =>
                    rw [get_eq_ok _ _ (by simp) (by simp), ok_bind] at h
                    refine ⟨by simp [hgu], by simp [hgu], ?_⟩
                    rw [hgu]
                    by_cases hsp : truthy (getv (Value.bool b) "speed") = true
                    · rw [if_pos hsp, pure_ok] at h
                      exact Or.inl ⟨hsp, ((Except.ok.injEq _ _).mp h).symm⟩
                    · rw [Bool.not_eq_true] at hsp
                      rw [if_neg (by simp [hsp]), pure_ok] at h
                      exact Or.inr ⟨hsp, ((Except.ok.injEq _ _).mp h).symm⟩
                | num n =>
                    rw [get_eq_ok _ _ (by simp) (by simp), ok_bind] at h
                    refine ⟨by simp [hgu], by simp [hgu], ?_⟩
                    rw [hgu]
                    by_cases hsp : truthy (getv (Value.num n) "speed") = true
                    · rw [if_pos hsp, pure_ok] at h
                      exact Or.inl ⟨hsp, ((Except.ok.injEq _ _).mp h).symm⟩
                    · rw [Bool.not_eq_true] at hsp
                      rw [if_neg (by simp [hsp]), pure_ok] at h
                      exact Or.inr ⟨hsp, ((Except.ok.injEq _ _).mp h).symm⟩
                | str s =>
                    rw [get_eq_ok _ _ (by simp) (by simp), ok_bind] at h
                    refine ⟨by simp [hgu], by simp [hgu], ?_⟩
                    rw [hgu]
                    by_cases hsp : truthy (getv (Value.str s) "speed") = true
                    · rw [if_pos hsp, pure_ok] at h
                      exact Or.inl ⟨hsp, ((Except.ok.injEq _ _).mp h).symm⟩
                    · rw [Bool.not_eq_true] at hsp
                      rw [if_neg (by simp [hsp]), pure_ok] at h
                      exact Or.inr ⟨hsp, ((Except.ok.injEq _ _).mp h).symm⟩
                | arr l =>
                    rw [get_eq_ok _ _ (by simp) (by simp), ok_bind] at h
                    refine ⟨by simp [hgu], by simp [hgu], ?_⟩
                    rw [hgu]
                    by_cases hsp : truthy (getv (Value.arr l) "speed") = true
                    · rw [if_pos hsp, pure_ok] at h
                      exact Or.inl ⟨hsp, ((Except.ok.injEq _ _).mp h).symm⟩
                    · rw [Bool.not_eq_true] at hsp
                      rw [if_neg (by simp [hsp]), pure_ok] at h
                      exact Or.inr ⟨hsp, ((Except.ok.injEq _ _).mp h).symm⟩
                | obj ms =>
                    rw [get_eq_ok _ _ (by simp) (by simp), ok_bind] at h
                    refine ⟨by simp [hgu], by simp [hgu], ?_⟩
                    rw [hgu]
                    by_cases hsp : truthy (getv (Value.obj ms) "speed") = true
                    · rw [if_pos hsp, pure_ok] at h
                      exact Or.inl ⟨hsp, ((Except.ok.injEq _ _).mp h).symm⟩
                    · rw [Bool.not_eq_true] at hsp
                      rw [if_neg (by simp [hsp]), pure_ok] at h
                      exact Or.inr ⟨hsp, ((Except.ok.injEq _ _).mp h).symm⟩
          | undefVal => simp [Value.get, error_bind] at h
          | null => simp [Value.get, error_bind] at h
          | bool b => simp [Value.get, ok_bind, error_bind] at h
          | num n => simp [Value.get, ok_bind, error_bind] at h
          | str s => simp [Value.get, ok_bind, error_bind] at h
          | arr l => simp [Value.get, ok_bind, error_bind] at h

theorem addItemValid_ok_inv (item : Value) (u u' : Patch)
    (h : _addItemValidResistedDmgAbl item u = .ok u') :
    (item ≠ .undefVal ∧ item ≠ .null ∧ isStr (getv item "type") "power" = false ∧ u' = u)
    ∨ (isStr (getv item "type") "power" = true ∧
        getv item "data" ≠ .undefVal ∧ getv item "data" ≠ .null ∧
        ((truthy (getv (getv item "data") "damageResisted") = false ∧ u' = u) ∨
          (truthy (getv (getv item "data") "damageResisted") = true ∧
            truthy (getv (getv (getv item "data") "damageResisted") "dmgAbl") = true ∧ u' = u) ∨
          (truthy (getv (getv item "data") "damageResisted") = true ∧
            truthy (getv (getv (getv item "data") "damageResisted") "dmgAbl") = false ∧
            u' = setKey u "data.damageResisted.dmgAbl" (.str "will")))) := by
  by_cases hiu : item = .undefVal
  · subst hiu; simp [_addItemValidResistedDmgAbl, Value.get, error_bind] at h
  by_cases hin : item = .null
  · subst hin; simp [_addItemValidResistedDmgAbl, Value.get, error_bind] at h
  simp only [_addItemValidResistedDmgAbl] at h
  rw [get_eq_ok _ _ hiu hin, ok_bind] at h
  by_cases hpow : isStr (getv item "type") "power" = true
  · rw [if_neg (by simp [hpow]), get_eq_ok _ _ hiu hin, ok_bind] at h
    refine Or.inr ⟨hpow, ?_⟩
    by_cases hdu : getv item "data" = .undefVal
    · rw [hdu] at h; simp [Value.get, error_bind] at h
    by_cases hdn : getv item "data" = .null
    · rw [hdn] at h; simp [Value.get, error_bind] at h
    rw [get_eq_ok _ _ hdu hdn, ok_bind] at h
    refine ⟨hdu, hdn, ?_⟩
    by_cases hdr : truthy (getv (getv item "data") "damageResisted") = true
    · rw [if_pos hdr, get_eq_ok _ _ (truthy_ne_undef hdr) (truthy_ne_null hdr), ok_bind] at h
      by_cases hab : truthy (getv (getv (getv item "data") "damageResisted") "dmgAbl") = true
      · rw [if_neg (by simp [hab]), pure_ok] at h
        exact Or.inr (Or.inl ⟨hdr, hab, ((Except.ok.injEq _ _).mp h).symm⟩)
      · rw [Bool.not_eq_true] at hab
        rw [if_pos (by simp [hab]), pure_ok] at h
        exact Or.inr (Or.inr ⟨hdr, hab, ((Except.ok.injEq _ _).mp h).symm⟩)
    · rw [Bool.not_eq_true] at hdr
      rw [if_neg (by simp [hdr]), pure_ok] at h
      exact Or.inl ⟨hdr, ((Except.ok.injEq _ _).mp h).symm⟩
  · rw [Bool.not_eq_true] at hpow
    rw [if_pos (by simp [hpow]), pure_ok] at h
    exact Or.inl ⟨hiu, hin, hpow, ((Except.ok.injEq _ _).mp h).symm⟩

theorem addExtraPowerData_ok_inv (item : Value) (u u' : Patch)
    (h : _addExtraPowerData item u = .ok u') :
    (item ≠ .undefVal ∧ item ≠ .null ∧ isStr (getv item "type") "power" = false ∧ u' = u)
    ∨ (isStr (getv item "type") "power" = true ∧
        getv item "data" ≠ .undefVal ∧ getv item "data" ≠ .null ∧
        ((truthy (getv (getv item "data") "ablFatigue") = true ∧ u' = u) ∨
          (truthy (getv (getv item "data") "ablFatigue") = false ∧
            u' = setKey (setKey (setKey (setKey (setKey (setKey (setKey (setKey (setKey (setKey u
              "data.causeHealing" (.bool false))
              "data.ablFatigue" (.str "will"))
              "data.hasTest" (.bool false))
              "data.testAbl" (.str "will"))
              "data.testFocus" (.str ""))
              "data.damageResisted" (.obj []))
              "data.damageResisted.nrDice" (.num 1))
              "data.damageResisted.diceType" (.num 6))
              "data.damageResisted.extraValue" (.num 0))
              "data.damageResisted.dmgAbl" (.str "will")))) := by
  by_cases hiu : item = .undefVal
  · subst hiu; simp [_addExtraPowerData, Value.get, error_bind] at h
  by_cases hin : item = .null
  · subst hin; simp [_addExtraPowerData, Value.get, error_bind] at h
  simp only [_addExtraPowerData] at h
  rw [get_eq_ok _ _ hiu hin, ok_bind] at h
  by_cases hpow : isStr (getv item "type") "power" = true
  · rw [if_neg (by simp [hpow]), get_eq_ok _ _ hiu hin, ok_bind] at h
    refine Or.inr ⟨hpow, ?_⟩
    by_cases hdu : getv item "data" = .undefVal
    · rw [hdu] at h; simp [Value.get, error_bind] at h
    by_cases hdn : getv item "data" = .null
    · rw [hdn] at h; simp [Value.get, error_bind] at h
    rw [get_eq_ok _ _ hdu hdn, ok_bind] at h
    refine ⟨hdu, hdn, ?_⟩
    by_cases haf : truthy (getv (getv item "data") "ablFatigue") = true
    · rw [if_pos haf, pure_ok] at h
      exact Or.inl ⟨haf, ((Except.ok.injEq _ _).mp h).symm⟩
    · rw [Bool.not_eq_true] at haf
      rw [if_neg (by simp [haf]), pure_ok] at h
      exact Or.inr ⟨haf, ((Except.ok.injEq _ _).mp h).symm⟩
  · rw [Bool.not_eq_true] at hpow
    rw [if_pos (by simp [hpow]), pure_ok] at h
    exact Or.inl ⟨hiu, hin, hpow, ((Except.ok.injEq _ _).mp h).symm⟩

theorem addItemForceAbl_ok_inv (item : Value) (u u' : Patch)
    (h : _addItemForceAbl item u = .ok u') :
    (item ≠ .undefVal ∧ item ≠ .null ∧ isStr (getv item "type") "power" = false ∧ u' = u)
    ∨ (isStr (getv item "type") "power" = true ∧
        getv item "data" ≠ .undefVal ∧ getv item "data" ≠ .null ∧
        ((truthy (getv (getv item "data") "itemForceAbl") = true ∧ u' = u) ∨
          (truthy (getv (getv item "data") "itemForceAbl") = false ∧
            u' = setKey u "data.itemForceAbl" (.str "will")))) := by
  by_cases hiu : item = .undefVal
  · subst hiu; simp [_addItemForceAbl, Value.get, error_bind] at h
  by_cases hin : item = .null
  · subst hin; simp [_addItemForceAbl, Value.get, error_bind] at h
  simp only [_addItemForceAbl] at h
  rw [get_eq_ok _ _ hiu hin, ok_bind] at h
  by_cases hpow : isStr (getv item "type") "power" = true
  · rw [if_neg (by simp [hpow]), get_eq_ok _ _ hiu hin, ok_bind] at h
    refine Or.inr ⟨hpow, ?_⟩
    by_cases hdu : getv item "data" = .undefVal
    · rw [hdu] at h; simp [Value.get, error_bind] at h
    by_cases hdn : getv item "data" = .null
    · rw [hdn] at h; simp [Value.get, error_bind] at h
    rw [get_eq_ok _ _ hdu hdn, ok_bind] at h
    refine ⟨hdu, hdn, ?_⟩
    by_cases hff : truthy (getv (getv item "data") "itemForceAbl") = true
    · rw [if_pos hff, pure_ok] at h
      exact Or.inl ⟨hff, ((Except.ok.injEq _ _).mp h).symm⟩
    · rw [Bool.not_eq_true] at hff
      rw [if_neg (by simp [hff]), pure_ok] at h
      exact Or.inr ⟨hff, ((Except.ok.injEq _ _).mp h).symm⟩
  · rw [Bool.not_eq_true] at hpow
    rw [if_pos (by simp [hpow]), pure_ok] at h
    exact Or.inl ⟨hiu, hin, hpow, ((Except.ok.injEq _ _).mp h).symm⟩

/-! ## Forward evaluation lemmas: helper runs that contribute nothing -/

theorem addItemModSpeed_skip_excl (item : Value) (u : Patch)
    (hiu : item ≠ .undefVal) (hin : item ≠ .null)
    (hexcl : isExcludedType (getv item "type") = true) :
    _addItemModSpeed item u = .ok u := by
  simp only [_addItemModSpeed]
  rw [get_eq_ok _ _ hiu hin, ok_bind, if_pos hexcl, pure_ok]

theorem addItemModSpeed_skip (item : Value) (u : Patch)
    (hiu : item ≠ .undefVal) (hin : item ≠ .null)
    (hexcl : isExcludedType (getv item "type") = false)
    (hdu : getv item "data" ≠ .undefVal) (hdn : getv item "data" ≠ .null)
    (hmu : getv (getv item "data") "itemMods" ≠ .undefVal)
    (hmn : getv (getv item "data") "itemMods" ≠ .null)
    (hsp : truthy (getv (getv (getv item "data") "itemMods") "speed") = true) :
    _addItemModSpeed item u = .ok u := by
  simp only [_addItemModSpeed]
  rw [get_eq_ok _ _ hiu hin, ok_bind, if_neg (by simp [hexcl]), get_eq_ok _ _ hiu hin, ok_bind,
    get_eq_ok _ _ hdu hdn, ok_bind, get_eq_ok _ _ hmu hmn, ok_bind, if_pos hsp]
  rfl

theorem addItemValid_skip_nonpower (item : Value) (u : Patch)
    (hiu : item ≠ .undefVal) (hin : item ≠ .null)
    (hpow : isStr (getv item "type") "power" = false) :
    _addItemValidResistedDmgAbl item u = .ok u := by
  simp only [_addItemValidResistedDmgAbl]
  rw [get_eq_ok _ _ hiu hin, ok_bind, if_pos (by simp [hpow]), pure_ok]

theorem addItemValid_skip (item : Value) (u : Patch)
    (hiu : item ≠ .undefVal) (hin : item ≠ .null)
    (hdu : getv item "data" ≠ .undefVal) (hdn : getv item "data" ≠ .null)
    (hdr : truthy (getv (getv item "data") "damageResisted") = false ∨
      truthy (getv (getv (getv item "data") "damageResisted") "dmgAbl") = true) :
    _addItemValidResistedDmgAbl item u = .ok u := by
  simp only [_addItemValidResistedDmgAbl]
  rw [get_eq_ok _ _ hiu hin, ok_bind]
  by_cases hpow : isStr (getv item "type") "power" = true
  · rw [if_neg (by simp [hpow]), get_eq_ok _ _ hiu hin, ok_bind, get_eq_ok _ _ hdu hdn, ok_bind]
    by_cases hdrt : truthy (getv (getv item "data") "damageResisted") = true
    · rcases hdr with hdr | hdr
      · rw [hdr] at hdrt; cases hdrt
      · rw [if_pos hdrt, get_eq_ok _ _ (truthy_ne_undef hdrt) (truthy_ne_null hdrt), ok_bind,
          if_neg (by simp [hdr])]
        rfl
    · rw [if_neg hdrt]
      rfl
  · rw [Bool.not_eq_true] at hpow
    rw [if_pos (by simp [hpow]), pure_ok]

theorem addExtraPowerData_skip_nonpower (item : Value) (u : Patch)
    (hiu : item ≠ .undefVal) (hin : item ≠ .null)
    (hpow : isStr (getv item "type") "power" = false) :
    _addExtraPowerData item u = .ok u := by
  simp only [_addExtraPowerData]
  rw [get_eq_ok _ _ hiu hin, ok_bind, if_pos (by simp [hpow]), pure_ok]

theorem addExtraPowerData_skip (item : Value) (u : Patch)
    (hiu : item ≠ .undefVal) (hin : item ≠ .null)
    (hdu : getv item "data" ≠ .undefVal) (hdn : getv item "data" ≠ .null)
    (haf : truthy (getv (getv item "data") "ablFatigue") = true) :
    _addExtraPowerData item u = .ok u := by
  simp only [_addExtraPowerData]
  rw [get_eq_ok _ _ hiu hin, ok_bind]
  by_cases hpow : isStr (getv item "type") "power" = true
  · rw [if_neg (by simp [hpow]), get_eq_ok _ _ hiu hin, ok_bind, get_eq_ok _ _ hdu hdn, ok_bind,
      if_pos haf]
    rfl
  · rw [Bool.not_eq_true] at hpow
    rw [if_pos (by simp [hpow]), pure_ok]

theorem addItemForceAbl_skip_nonpower (item : Value) (u : Patch)
    (hiu : item ≠ .undefVal) (hin : item ≠ .null)
    (hpow : isStr (getv item "type") "power" = false) :
    _addItemForceAbl item u = .ok u := by
  simp only [_addItemForceAbl]
  rw [get_eq_ok _ _ hiu hin, ok_bind, if_pos (by simp [hpow]), pure_ok]

theorem addItemForceAbl_skip (item : Value) (u : Patch)
    (hiu : item ≠ .undefVal) (hin : item ≠ .null)
    (hdu : getv item "data" ≠ .undefVal) (hdn : getv item "data" ≠ .null)
    (hff : truthy (getv (getv item "data") "itemForceAbl") = true) :
    _addItemForceAbl item u = .ok u := by
  simp only [_addItemForceAbl]
  rw [get_eq_ok _ _ hiu hin, ok_bind]
  by_cases hpow : isStr (getv item "type") "power" = true
  · rw [if_neg (by simp [hpow]), get_eq_ok _ _ hiu hin, ok_bind, get_eq_ok _ _ hdu hdn, ok_bind,
      if_pos hff]
    rfl
  · rw [Bool.not_eq_true] at hpow
    rw [if_pos (by simp [hpow]), pure_ok]

/-- When an item's subtype is excluded, one run of `migrateItemData`
contributes nothing. -/
theorem migrateItemData_skip_excluded (item : Value)
    (hiu : item ≠ .undefVal) (hin : item ≠ .null)
    (hexcl : isExcludedType (getv item "type") = true) :
    migrateItemData item = .ok [] := by
  have hpow := excluded_not_power hexcl
  simp only [migrateItemData]
  rw [addItemModSpeed_skip_excl _ _ hiu hin hexcl, ok_bind,
    addItemValid_skip_nonpower _ _ hiu hin hpow, ok_bind,
    addExtraPowerData_skip_nonpower _ _ hiu hin hpow, ok_bind,
    addItemForceAbl_skip_nonpower _ _ hiu hin hpow, ok_bind, pure_ok]

/-- The general "already migrated" run: every guard is satisfied, so
`migrateItemData` contributes nothing. -/
theorem migrateItemData_skip (item : Value)
    (hiu : item ≠ .undefVal) (hin : item ≠ .null)
    (hexcl : isExcludedType (getv item "type") = false)
    (hdu : getv item "data" ≠ .undefVal) (hdn : getv item "data" ≠ .null)
    (hmu : getv (getv item "data") "itemMods" ≠ .undefVal)
    (hmn : getv (getv item "data") "itemMods" ≠ .null)
    (hsp : truthy (getv (getv (getv item "data") "itemMods") "speed") = true)
    (hpw : isStr (getv item "type") "power" = true →
      (truthy (getv (getv item "data") "damageResisted") = false ∨
        truthy (getv (getv (getv item "data") "damageResisted") "dmgAbl") = true) ∧
      truthy (getv (getv item "data") "ablFatigue") = true ∧
      truthy (getv (getv item "data") "itemForceAbl") = true) :
    migrateItemData item = .ok [] := by
  simp only [migrateItemData]
  rw [addItemModSpeed_skip _ _ hiu hin hexcl hdu hdn hmu hmn hsp, ok_bind]
  by_cases hpow : isStr (getv item "type") "power" = true
  · obtain ⟨hdr, haf, hff⟩ := hpw hpow
    rw [addItemValid_skip _ _ hiu hin hdu hdn hdr, ok_bind,
      addExtraPowerData_skip _ _ hiu hin hdu hdn haf, ok_bind,
      addItemForceAbl_skip _ _ hiu hin hdu hdn hff, ok_bind, pure_ok]
  · rw [Bool.not_eq_true] at hpow
    rw [addItemValid_skip_nonpower _ _ hiu hin hpow, ok_bind,
      addExtraPowerData_skip_nonpower _ _ hiu hin hpow, ok_bind,
      addItemForceAbl_skip_nonpower _ _ hiu hin hpow, ok_bind, pure_ok]

/-! ## Lookups after a merge -/

theorem getD_eq_of_ne_undef {o : Option Value} {v : Value}
    (h : o.getD .undefVal = v) (hv : v ≠ .undefVal) : o = some v := by
  cases o <;> simp_all

/-- A key present (with distinct keys) in the incoming list merges to
`mergeVal` of the old and incoming value. -/
theorem lookupField_mergeList_of_mem (fb : List (String × Value))
    (fa : List (String × Value)) (k : String) (v : Value)
    (hnd : (fb.map Prod.fst).Nodup) (hv : lookupField fb k = some v) :
    lookupField (mergeList fa fb) k = some (mergeVal (lookupField fa k) v) := by
  induction fb generalizing fa with
  | nil => simp [lookupField] at hv
  | cons kv rest ih =>
      obtain ⟨k1, v1⟩ := kv
      rw [mergeList_cons]
      simp only [List.map_cons, List.nodup_cons] at hnd
      simp only [lookupField] at hv
      by_cases h1 : k1 = k
      · subst h1
        simp at hv
        subst hv
        have hrest : lookupField rest k1 = none := by
          rcases hres : lookupField rest k1 with _ | w
          · rfl
          · exfalso
            apply hnd.1
            clear ih hnd
            induction rest with
            | nil => simp [lookupField] at hres
            | cons kv2 rest2 ih2 =>
                obtain ⟨k2, v2⟩ := kv2
                simp only [lookupField] at hres
                by_cases h2 : k2 = k1
                · subst h2; simp
                · simp only [h2, if_false] at hres
                  simp [ih2 hres]
        rw [lookupField_mergeList_of_notin _ _ _ hrest, lookupField_setField_self]
      · simp only [h1, if_false] at hv
        rw [ih _ hnd.2 hv, lookupField_setField_ne _ _ _ _ h1]

/-- A key absent from the incoming list keeps its old object value. -/
theorem getv_mergeList_of_notin (ds DdF : List (String × Value)) (k : String)
    (h : lookupField DdF k = none) :
    getv (.obj (mergeList ds DdF)) k = getv (.obj ds) k := by
  simp [getv, lookupField_mergeList_of_notin _ _ _ h]

theorem applyPatch_obj_nil (fs : List (String × Value)) :
    applyPatch (.obj fs) [] = .obj fs := by
  simp [applyPatch, expandPatch, deepMerge, List.foldl, mergeList_nil]

/-- Truthiness of a falsy value survives as "not an object". -/
theorem mergeVal_of_falsy {sv : Value} (h : truthy sv = false) (v : Value) :
    mergeVal (some sv) v = v := by
  cases sv with
  | undefVal => exact mergeVal_old_undef v
  | null => exact mergeVal_old_null v
  | bool b => exact mergeVal_old_bool b v
  | num n => exact mergeVal_old_num n v
  | str s => exact mergeVal_old_str s v
  | obj fs => simp [truthy] at h
  | arr l => simp [truthy] at h

/-- After merging a fresh speed subtree over an `itemMods` that was neither
`undefined` nor `null` and had a falsy `speed`, the merged `itemMods` is an
object whose `speed` is the fresh (truthy) speed object. -/
theorem itemMods_fact (ds DdF : List (String × Value))
    (hin : lookupField DdF "itemMods" =
      some (.obj [("speed", .obj [("isActive", .bool false), ("value", .num 0)])]))
    (hnd : (DdF.map Prod.fst).Nodup)
    (hmu : getv (.obj ds) "itemMods" ≠ .undefVal)
    (hmn : getv (.obj ds) "itemMods" ≠ .null)
    (hsp : truthy (getv (getv (.obj ds) "itemMods") "speed") = false) :
    getv (.obj (mergeList ds DdF)) "itemMods" ≠ .undefVal ∧
    getv (.obj (mergeList ds DdF)) "itemMods" ≠ .null ∧
    truthy (getv (getv (.obj (mergeList ds DdF)) "itemMods") "speed") = true := by
  have hlk := lookupField_mergeList_of_mem DdF ds "itemMods" _ hnd hin
  have hgv : getv (.obj (mergeList ds DdF)) "itemMods" =
      mergeVal (lookupField ds "itemMods")
        (.obj [("speed", .obj [("isActive", .bool false), ("value", .num 0)])]) := by
    simp [getv, hlk]
  rcases hold : lookupField ds "itemMods" with _ | w
  · rw [hold, mergeVal_none] at hgv
    refine ⟨by simp [hgv], by simp [hgv], ?_⟩
    rw [hgv]
    simp [getv, lookupField, truthy]
  · have hw : getv (.obj ds) "itemMods" = w := by simp [getv, hold]
    rw [hold] at hgv
    cases w with
    | obj ms =>
        rw [mergeVal_obj_obj] at hgv
        refine ⟨by simp [hgv], by simp [hgv], ?_⟩
        rw [hgv]
        have hin2 : lookupField [("speed", Value.obj [("isActive", Value.bool false),
            ("value", Value.num 0)])] "speed" =
            some (.obj [("isActive", .bool false), ("value", .num 0)]) := rfl
        have hlk2 := lookupField_mergeList_of_mem _ ms "speed" _ (by simp) hin2
        have hgv2 : getv (.obj (mergeList ms [("speed", Value.obj [("isActive", Value.bool false),
            ("value", Value.num 0)])])) "speed" =
            mergeVal (lookupField ms "speed")
              (.obj [("isActive", .bool false), ("value", .num 0)]) := by
          simp [getv, hlk2]
        rw [hgv2]
        rw [hw] at hsp
        rcases hos : lookupField ms "speed" with _ | sv
        · rw [mergeVal_none]; rfl
        · have hsv : getv (Value.obj ms) "speed" = sv := by simp [getv, hos]
          rw [hsv] at hsp
          rw [mergeVal_of_falsy hsp]
          rfl
    | undefVal => exact absurd hw.symm (Ne.symm hmu)
    | null => exact absurd hw.symm (Ne.symm hmn)
    | bool b =>
        rw [mergeVal_old_bool] at hgv
        exact ⟨by simp [hgv], by simp [hgv], by rw [hgv]; simp [getv, lookupField, truthy]⟩
    | num n =>
        rw [mergeVal_old_num] at hgv
        exact ⟨by simp [hgv], by simp [hgv], by rw [hgv]; simp [getv, lookupField, truthy]⟩
    | str s =>
        rw [mergeVal_old_str] at hgv
        exact ⟨by simp [hgv], by simp [hgv], by rw [hgv]; simp [getv, lookupField, truthy]⟩
    | arr l =>
        rw [mergeVal_old_arr] at hgv
        exact ⟨by simp [hgv], by simp [hgv], by rw [hgv]; simp [getv, lookupField, truthy]⟩

/-- A string-valued key of the incoming list wins outright. -/
theorem strkey_fact (ds DdF : List (String × Value)) (k s : String)
    (hin : lookupField DdF k = some (.str s))
    (hnd : (DdF.map Prod.fst).Nodup) :
    getv (.obj (mergeList ds DdF)) k = .str s := by
  have hlk := lookupField_mergeList_of_mem DdF ds k _ hnd hin
  simp [getv, hlk, mergeVal_new_str]

/-- After merging an incoming `damageResisted` object that carries
`dmgAbl = "will"`, the merged record's `damageResisted.dmgAbl` is truthy. -/
theorem dr_fact (ds DdF DRF : List (String × Value))
    (hin : lookupField DdF "damageResisted" = some (.obj DRF))
    (hnd : (DdF.map Prod.fst).Nodup)
    (hnd2 : (DRF.map Prod.fst).Nodup)
    (hv : lookupField DRF "dmgAbl" = some (.str "will")) :
    truthy (getv (getv (.obj (mergeList ds DdF)) "damageResisted") "dmgAbl") = true := by
  have hlk := lookupField_mergeList_of_mem DdF ds "damageResisted" _ hnd hin
  have hgv : getv (.obj (mergeList ds DdF)) "damageResisted" =
      mergeVal (lookupField ds "damageResisted") (.obj DRF) := by
    simp [getv, hlk]
  rcases hold : lookupField ds "damageResisted" with _ | w
  · rw [hold, mergeVal_none] at hgv
    rw [hgv]
    simp [getv, hv, truthy]
  · rw [hold] at hgv
    cases w with
    | obj dro =>
        rw [mergeVal_obj_obj] at hgv
        rw [hgv]
        have hlk2 := lookupField_mergeList_of_mem DRF dro "dmgAbl" _ hnd2 hv
        simp [getv, hlk2, mergeVal_new_str, truthy]
    | undefVal => rw [mergeVal_old_undef] at hgv; rw [hgv]; simp [getv, hv, truthy]
    | null => rw [mergeVal_old_null] at hgv; rw [hgv]; simp [getv, hv, truthy]
    | bool b => rw [mergeVal_old_bool] at hgv; rw [hgv]; simp [getv, hv, truthy]
    | num n => rw [mergeVal_old_num] at hgv; rw [hgv]; simp [getv, hv, truthy]
    | str s => rw [mergeVal_old_str] at hgv; rw [hgv]; simp [getv, hv, truthy]
    | arr l => rw [mergeVal_old_arr] at hgv; rw [hgv]; simp [getv, hv, truthy]

/-- The re-run of `migrateItemData` on the patched record is empty, given
the patch expands to a single `data` subtree and the merged `data` fields
satisfy every guard. -/
theorem rerun_ok (fs ds : List (String × Value)) (p : Patch) (DdF : List (String × Value))
    (hexp : expandPatch p = .obj [("data", .obj DdF)])
    (hld : lookupField fs "data" = some (.obj ds))
    (hexcl : isExcludedType (getv (.obj fs) "type") = false)
    (hmu : getv (.obj (mergeList ds DdF)) "itemMods" ≠ .undefVal)
    (hmn : getv (.obj (mergeList ds DdF)) "itemMods" ≠ .null)
    (hsp : truthy (getv (getv (.obj (mergeList ds DdF)) "itemMods") "speed") = true)
    (hpw : isStr (getv (.obj fs) "type") "power" = true →
      (truthy (getv (.obj (mergeList ds DdF)) "damageResisted") = false ∨
        truthy (getv (getv (.obj (mergeList ds DdF)) "damageResisted") "dmgAbl") = true) ∧
      truthy (getv (.obj (mergeList ds DdF)) "ablFatigue") = true ∧
      truthy (getv (.obj (mergeList ds DdF)) "itemForceAbl") = true) :
    migrateItemData (applyPatch (.obj fs) p) = .ok [] := by
  have happ : applyPatch (.obj fs) p =
      .obj (setField fs "data" (.obj (mergeList ds DdF))) := by
    rw [applyPatch, hexp, deepMerge, mergeList_cons, hld, mergeVal_obj_obj, mergeList_nil]
  rw [happ]
  have htype : getv (.obj (setField fs "data" (.obj (mergeList ds DdF)))) "type" =
      getv (.obj fs) "type" := by
    simp [getv, lookupField_setField_ne _ _ _ _ (by decide : "data" ≠ "type")]
  have hdata : getv (.obj (setField fs "data" (.obj (mergeList ds DdF)))) "data" =
      .obj (mergeList ds DdF) := by
    simp [getv, lookupField_setField_self]
  exact migrateItemData_skip _ (by simp) (by simp) (by rw [htype]; exact hexcl)
    (by rw [hdata]; simp) (by rw [hdata]; simp)
    (by rw [hdata]; exact hmu) (by rw [hdata]; exact hmn) (by rw [hdata]; exact hsp)
    (by rw [htype, hdata]; exact hpw)

/-! ## Forward evaluation lemmas: firing helpers -/

theorem addItemValid_fire (item : Value) (u : Patch)
    (hiu : item ≠ .undefVal) (hin : item ≠ .null)
    (hpow : isStr (getv item "type") "power" = true)
    (hdu : getv item "data" ≠ .undefVal) (hdn : getv item "data" ≠ .null)
    (hdr : truthy (getv (getv item "data") "damageResisted") = true)
    (hab : truthy (getv (getv (getv item "data") "damageResisted") "dmgAbl") = false) :
    _addItemValidResistedDmgAbl item u = .ok (setKey u "data.damageResisted.dmgAbl" (.str "will")) := by
  simp only [_addItemValidResistedDmgAbl]
  rw [get_eq_ok _ _ hiu hin, ok_bind, if_neg (by simp [hpow]), get_eq_ok _ _ hiu hin, ok_bind,
    get_eq_ok _ _ hdu hdn, ok_bind, if_pos hdr,
    get_eq_ok _ _ (truthy_ne_undef hdr) (truthy_ne_null hdr), ok_bind, if_pos (by simp [hab])]
  rfl

theorem addExtraPowerData_fire (item : Value) (u : Patch)
    (hiu : item ≠ .undefVal) (hin : item ≠ .null)
    (hpow : isStr (getv item "type") "power" = true)
    (hdu : getv item "data" ≠ .undefVal) (hdn : getv item "data" ≠ .null)
    (haf : truthy (getv (getv item "data") "ablFatigue") = false) :
    _addExtraPowerData item u = .ok (setKey (setKey (setKey (setKey (setKey (setKey (setKey (setKey (setKey (setKey u
      "data.causeHealing" (.bool false))
      "data.ablFatigue" (.str "will"))
      "data.hasTest" (.bool false))
      "data.testAbl" (.str "will"))
      "data.testFocus" (.str ""))
      "data.damageResisted" (.obj []))
      "data.damageResisted.nrDice" (.num 1))
      "data.damageResisted.diceType" (.num 6))
      "data.damageResisted.extraValue" (.num 0))
      "data.damageResisted.dmgAbl" (.str "will")) := by
  simp only [_addExtraPowerData]
  rw [get_eq_ok _ _ hiu hin, ok_bind, if_neg (by simp [hpow]), get_eq_ok _ _ hiu hin, ok_bind,
    get_eq_ok _ _ hdu hdn, ok_bind, if_neg (by simp [haf])]
  rfl

/-- The core of the idempotence argument: given the guard facts from a
successful first run, firing any collision-free combination of the four
helpers produces a patch whose merge satisfies every guard of the second
run. -/
theorem rerun_param (fs ds : List (String × Value)) (bS bV bE bF : Bool)
    (hVE : ¬(bV = true ∧ bE = true))
    (hld : lookupField fs "data" = some (.obj ds))
    (hexcl : isExcludedType (getv (.obj fs) "type") = false)
    (hmu : getv (.obj ds) "itemMods" ≠ .undefVal)
    (hmn : getv (.obj ds) "itemMods" ≠ .null)
    (hSt : bS = true → truthy (getv (getv (.obj ds) "itemMods") "speed") = false)
    (hSf : bS = false → truthy (getv (getv (.obj ds) "itemMods") "speed") = true)
    (hVF : isStr (getv (.obj fs) "type") "power" = true → bV = false → bE = false →
      truthy (getv (.obj ds) "damageResisted") = false ∨
      truthy (getv (getv (.obj ds) "damageResisted") "dmgAbl") = true)
    (hE : isStr (getv (.obj fs) "type") "power" = true → bE = false →
      truthy (getv (.obj ds) "ablFatigue") = true)
    (hF : isStr (getv (.obj fs) "type") "power" = true → bF = false →
      truthy (getv (.obj ds) "itemForceAbl") = true) :
    migrateItemData (applyPatch (.obj fs) (itemPatchOf bS bV bE bF)) = .ok [] := by
  have hgd : getv (.obj fs) "data" = .obj ds := by simp [getv, hld]
  cases bS <;> cases bV <;> cases bE <;> cases bF
  -- (F,F,F,F): empty patch, the record is untouched
  · rw [show itemPatchOf false false false false = ([] : Patch) from rfl, applyPatch_obj_nil]
    refine migrateItemData_skip _ (by simp) (by simp) hexcl (by rw [hgd]; simp)
      (by rw [hgd]; simp) (by rw [hgd]; exact hmu) (by rw [hgd]; exact hmn)
      (by rw [hgd]; exact hSf rfl) ?_
    intro hpow
    rw [hgd]
    exact ⟨hVF hpow rfl rfl, hE hpow rfl, hF hpow rfl⟩
  -- (F,F,F,T): only itemForceAbl
  · refine rerun_ok fs ds _ (dataFieldsOf false false false true) rfl hld hexcl ?_ ?_ ?_ ?_
    · rw [getv_mergeList_of_notin _ _ _ (by rfl)]; exact hmu
    · rw [getv_mergeList_of_notin _ _ _ (by rfl)]; exact hmn
    · rw [getv_mergeList_of_notin _ _ _ (by rfl)]; exact hSf rfl
    · intro hpow
      refine ⟨?_, ?_, ?_⟩
      · rw [getv_mergeList_of_notin _ _ _ (by rfl)]; exact hVF hpow rfl rfl
      · rw [getv_mergeList_of_notin _ _ _ (by rfl)]; exact hE hpow rfl
      · rw [strkey_fact ds _ "itemForceAbl" "will" (by rfl) (by decide)]; rfl
  -- (F,F,T,F): ablFatigue bundle only
  · refine rerun_ok fs ds _ (dataFieldsOf false false true false) rfl hld hexcl ?_ ?_ ?_ ?_
    · rw [getv_mergeList_of_notin _ _ _ (by rfl)]; exact hmu
    · rw [getv_mergeList_of_notin _ _ _ (by rfl)]; exact hmn
    · rw [getv_mergeList_of_notin _ _ _ (by rfl)]; exact hSf rfl
    · intro hpow
      refine ⟨Or.inr (dr_fact ds _ _ (by rfl) (by decide) (by decide) (by rfl)), ?_, ?_⟩
      · rw [strkey_fact ds _ "ablFatigue" "will" (by rfl) (by decide)]; rfl
      · rw [getv_mergeList_of_notin _ _ _ (by rfl)]; exact hF hpow rfl
  -- (F,F,T,T): bundle and itemForceAbl
  · refine rerun_ok fs ds _ (dataFieldsOf false false true true) rfl hld hexcl ?_ ?_ ?_ ?_
    · rw [getv_mergeList_of_notin _ _ _ (by rfl)]; exact hmu
    · rw [getv_mergeList_of_notin _ _ _ (by rfl)]; exact hmn
    · rw [getv_mergeList_of_notin _ _ _ (by rfl)]; exact hSf rfl
    · intro hpow
      refine ⟨Or.inr (dr_fact ds _ _ (by rfl) (by decide) (by decide) (by rfl)), ?_, ?_⟩
      · rw [strkey_fact ds _ "ablFatigue" "will" (by rfl) (by decide)]; rfl
      · rw [strkey_fact ds _ "itemForceAbl" "will" (by rfl) (by decide)]; rfl
  -- (F,T,F,F): dmgAbl fix only
  · refine rerun_ok fs ds _ (dataFieldsOf false true false false) rfl hld hexcl ?_ ?_ ?_ ?_
    · rw [getv_mergeList_of_notin _ _ _ (by rfl)]; exact hmu
    · rw [getv_mergeList_of_notin _ _ _ (by rfl)]; exact hmn
    · rw [getv_mergeList_of_notin _ _ _ (by rfl)]; exact hSf rfl
    · intro hpow
      refine ⟨Or.inr (dr_fact ds _ _ (by rfl) (by decide) (by decide) (by rfl)), ?_, ?_⟩
      · rw [getv_mergeList_of_notin _ _ _ (by rfl)]; exact hE hpow rfl
      · rw [getv_mergeList_of_notin _ _ _ (by rfl)]; exact hF hpow rfl
  -- (F,T,F,T): dmgAbl fix and itemForceAbl
  · refine rerun_ok fs ds _ (dataFieldsOf false true false true) rfl hld hexcl ?_ ?_ ?_ ?_
    · rw [getv_mergeList_of_notin _ _ _ (by rfl)]; exact hmu
    · rw [getv_mergeList_of_notin _ _ _ (by rfl)]; exact hmn
    · rw [getv_mergeList_of_notin _ _ _ (by rfl)]; exact hSf rfl
    · intro hpow
      refine ⟨Or.inr (dr_fact ds _ _ (by rfl) (by decide) (by decide) (by rfl)), ?_, ?_⟩
      · rw [getv_mergeList_of_notin _ _ _ (by rfl)]; exact hE hpow rfl
      · rw [strkey_fact ds _ "itemForceAbl" "will" (by rfl) (by decide)]; rfl
  -- (F,T,T,F): excluded by the collision hypothesis
  · exact absurd ⟨rfl, rfl⟩ hVE
  -- (F,T,T,T): excluded by the collision hypothesis
  · exact absurd ⟨rfl, rfl⟩ hVE
  -- (T,F,F,F): speed only
  · refine rerun_ok fs ds _ (dataFieldsOf true false false false) rfl hld hexcl ?_ ?_ ?_ ?_
    · exact (itemMods_fact ds _ (by rfl) (by decide) hmu hmn (hSt rfl)).1
    · exact (itemMods_fact ds _ (by rfl) (by decide) hmu hmn (hSt rfl)).2.1
    · exact (itemMods_fact ds _ (by rfl) (by decide) hmu hmn (hSt rfl)).2.2
    · intro hpow
      refine ⟨?_, ?_, ?_⟩
      · rw [getv_mergeList_of_notin _ _ _ (by rfl)]; exact hVF hpow rfl rfl
      · rw [getv_mergeList_of_notin _ _ _ (by rfl)]; exact hE hpow rfl
      · rw [getv_mergeList_of_notin _ _ _ (by rfl)]; exact hF hpow rfl
  -- (T,F,F,T): speed and itemForceAbl
  · refine rerun_ok fs ds _ (dataFieldsOf true false false true) rfl hld hexcl ?_ ?_ ?_ ?_
    · exact (itemMods_fact ds _ (by rfl) (by decide) hmu hmn (hSt rfl)).1
    · exact (itemMods_fact ds _ (by rfl) (by decide) hmu hmn (hSt rfl)).2.1
    · exact (itemMods_fact ds _ (by rfl) (by decide) hmu hmn (hSt rfl)).2.2
    · intro hpow
      refine ⟨?_, ?_, ?_⟩
      · rw [getv_mergeList_of_notin _ _ _ (by rfl)]; exact hVF hpow rfl rfl
      · rw [getv_mergeList_of_notin _ _ _ (by rfl)]; exact hE hpow rfl
      · rw [strkey_fact ds _ "itemForceAbl" "will" (by rfl) (by decide)]; rfl
  -- (T,F,T,F): speed and bundle
  · refine rerun_ok fs ds _ (dataFieldsOf true false true false) rfl hld hexcl ?_ ?_ ?_ ?_
    · exact (itemMods_fact ds _ (by rfl) (by decide) hmu hmn (hSt rfl)).1
    · exact (itemMods_fact ds _ (by rfl) (by decide) hmu hmn (hSt rfl)).2.1
    · exact (itemMods_fact ds _ (by rfl) (by decide) hmu hmn (hSt rfl)).2.2
    · intro hpow
      refine ⟨Or.inr (dr_fact ds _ _ (by rfl) (by decide) (by decide) (by rfl)), ?_, ?_⟩
      · rw [strkey_fact ds _ "ablFatigue" "will" (by rfl) (by decide)]; rfl
      · rw [getv_mergeList_of_notin _ _ _ (by rfl)]; exact hF hpow rfl
  -- (T,F,T,T): speed, bundle, itemForceAbl
  · refine rerun_ok fs ds _ (dataFieldsOf true false true true) rfl hld hexcl ?_ ?_ ?_ ?_
    · exact (itemMods_fact ds _ (by rfl) (by decide) hmu hmn (hSt rfl)).1
    · exact (itemMods_fact ds _ (by rfl) (by decide) hmu hmn (hSt rfl)).2.1
    · exact (itemMods_fact ds _ (by rfl) (by decide) hmu hmn (hSt rfl)).2.2
    · intro hpow
      refine ⟨Or.inr (dr_fact ds _ _ (by rfl) (by decide) (by decide) (by rfl)), ?_, ?_⟩
      · rw [strkey_fact ds _ "ablFatigue" "will" (by rfl) (by decide)]; rfl
      · rw [strkey_fact ds _ "itemForceAbl" "will" (by rfl) (by decide)]; rfl
  -- (T,T,F,F): speed and dmgAbl fix
  · refine rerun_ok fs ds _ (dataFieldsOf true true false false) rfl hld hexcl ?_ ?_ ?_ ?_
    · exact (itemMods_fact ds _ (by rfl) (by decide) hmu hmn (hSt rfl)).1
    · exact (itemMods_fact ds _ (by rfl) (by decide) hmu hmn (hSt rfl)).2.1
    · exact (itemMods_fact ds _ (by rfl) (by decide) hmu hmn (hSt rfl)).2.2
    · intro hpow
      refine ⟨Or.inr (dr_fact ds _ _ (by rfl) (by decide) (by decide) (by rfl)), ?_, ?_⟩
      · rw [getv_mergeList_of_notin _ _ _ (by rfl)]; exact hE hpow rfl
      · rw [getv_mergeList_of_notin _ _ _ (by rfl)]; exact hF hpow rfl
  -- (T,T,F,T): speed, dmgAbl fix, itemForceAbl
  · refine rerun_ok fs ds _ (dataFieldsOf true true false true) rfl hld hexcl ?_ ?_ ?_ ?_
    · exact (itemMods_fact ds _ (by rfl) (by decide) hmu hmn (hSt rfl)).1
    · exact (itemMods_fact ds _ (by rfl) (by decide) hmu hmn (hSt rfl)).2.1
    · exact (itemMods_fact ds _ (by rfl) (by decide) hmu hmn (hSt rfl)).2.2
    · intro hpow
      refine ⟨Or.inr (dr_fact ds _ _ (by rfl) (by decide) (by decide) (by rfl)), ?_, ?_⟩
      · rw [getv_mergeList_of_notin _ _ _ (by rfl)]; exact hE hpow rfl
      · rw [strkey_fact ds _ "itemForceAbl" "will" (by rfl) (by decide)]; rfl
  -- (T,T,T,F): excluded by the collision hypothesis
  · exact absurd ⟨rfl, rfl⟩ hVE
  -- (T,T,T,T): excluded by the collision hypothesis
  · exact absurd ⟨rfl, rfl⟩ hVE

/-- Idempotence of the item patch computation, away from the
`damageResisted.dmgAbl` key collision: if one run succeeds with patch `p`
and the dmgAbl-fix and ablFatigue-bundle helpers did not both fire, then a
second run on the merged record succeeds with an empty patch. -/
theorem migrateItemData_idem (item : Value) (p : Patch)
    (h : migrateItemData item = .ok p) (hcl : noDmgAblClash item) :
    migrateItemData (applyPatch item p) = .ok [] := by
  simp only [migrateItemData] at h
  cases h1 : _addItemModSpeed item [] with
  | error e => rw [h1, error_bind] at h; cases h
  | ok u1 =>
  rw [h1, ok_bind] at h
  cases h2 : _addItemValidResistedDmgAbl item u1 with
  | error e => rw [h2, error_bind] at h; cases h
  | ok u2 =>
  rw [h2, ok_bind] at h
  cases h3 : _addExtraPowerData item u2 with
  | error e => rw [h3, error_bind] at h; cases h
  | ok u3 =>
  rw [h3, ok_bind] at h
  cases h4 : _addItemForceAbl item u3 with
  | error e => rw [h4, error_bind] at h; cases h
  | ok u4 =>
  rw [h4, ok_bind, pure_ok] at h
  obtain rfl : u4 = p := (Except.ok.injEq _ _).mp h
  obtain ⟨fs, rfl, hinv1⟩ := addItemModSpeed_ok_inv item [] u1 h1
  have hinv2 := addItemValid_ok_inv _ u1 u2 h2
  have hinv3 := addExtraPowerData_ok_inv _ u2 u3 h3
  have hinv4 := addItemForceAbl_ok_inv _ u3 u4 h4
  rcases hinv1 with ⟨hexcl, rfl⟩ | ⟨hexcl, ds, hds, hmu, hmn, hspd⟩
  · -- excluded subtype: nothing fired, the patch is empty
    have hpowX := excluded_not_power hexcl
    rcases hinv2 with ⟨_, _, _, rfl⟩ | ⟨hpow2, _⟩
    · rcases hinv3 with ⟨_, _, _, rfl⟩ | ⟨hpow3, _⟩
      · rcases hinv4 with ⟨_, _, _, rfl⟩ | ⟨hpow4, _⟩
        · rw [applyPatch_obj_nil]
          exact migrateItemData_skip_excluded _ (by simp) (by simp) hexcl
        · rw [hpowX] at hpow4; cases hpow4
      · rw [hpowX] at hpow3; cases hpow3
    · rw [hpowX] at hpow2; cases hpow2
  · -- non-excluded subtype
    have hld : lookupField fs "data" = some (.obj ds) := by
      have hds' := hds
      simp only [getv] at hds'
      exact getD_eq_of_ne_undef hds' (by simp)
  -- from here, resolve the remaining helpers by whether the subtype is power
    by_cases hpow : isStr (getv (.obj fs) "type") "power" = true
    · -- power item: resolve the three power helpers
      rcases hinv2 with ⟨_, _, hpow2, rfl⟩ | ⟨_, hdu2, hdn2, hd2⟩
      · rw [hpow] at hpow2; cases hpow2
      rcases hinv3 with ⟨_, _, hpow3, _⟩ | ⟨_, hdu3, hdn3, hd3⟩
      · rw [hpow] at hpow3; cases hpow3
      rcases hinv4 with ⟨_, _, hpow4, _⟩ | ⟨_, _, _, hd4⟩
      · rw [hpow] at hpow4; cases hpow4
      rcases hd2 with ⟨hdrF, rfl⟩ | ⟨hdrT, habT, rfl⟩ | ⟨hdrT, habF, rfl⟩
      · -- dmgAbl fix skipped: damageResisted falsy
        have hVFx : truthy (getv (.obj ds) "damageResisted") = false ∨
            truthy (getv (getv (.obj ds) "damageResisted") "dmgAbl") = true := by
          rw [← hds]; exact Or.inl hdrF
        rcases hd3 with ⟨hafT, rfl⟩ | ⟨hafF, rfl⟩
        · rcases hd4 with ⟨hffT, rfl⟩ | ⟨hffF, rfl⟩
          · rcases hspd with ⟨hsp, rfl⟩ | ⟨hsp, rfl⟩
            · exact rerun_param fs ds false false false false (by simp) hld hexcl hmu hmn
                (fun hh => absurd hh (by simp)) (fun _ => hsp) (fun _ _ _ => hVFx)
                (fun _ _ => by rw [← hds]; exact hafT) (fun _ _ => by rw [← hds]; exact hffT)
            · exact rerun_param fs ds true false false false (by simp) hld hexcl hmu hmn
                (fun _ => hsp) (fun hh => absurd hh (by simp)) (fun _ _ _ => hVFx)
                (fun _ _ => by rw [← hds]; exact hafT) (fun _ _ => by rw [← hds]; exact hffT)
          · rcases hspd with ⟨hsp, rfl⟩ | ⟨hsp, rfl⟩
            · exact rerun_param fs ds false false false true (by simp) hld hexcl hmu hmn
                (fun hh => absurd hh (by simp)) (fun _ => hsp) (fun _ _ _ => hVFx)
                (fun _ _ => by rw [← hds]; exact hafT) (fun _ hh => absurd hh (by simp))
            · exact rerun_param fs ds true false false true (by simp) hld hexcl hmu hmn
                (fun _ => hsp) (fun hh => absurd hh (by simp)) (fun _ _ _ => hVFx)
                (fun _ _ => by rw [← hds]; exact hafT) (fun _ hh => absurd hh (by simp))
        · rcases hd4 with ⟨hffT, rfl⟩ | ⟨hffF, rfl⟩
          · rcases hspd with ⟨hsp, rfl⟩ | ⟨hsp, rfl⟩
            · exact rerun_param fs ds false false true false (by simp) hld hexcl hmu hmn
                (fun hh => absurd hh (by simp)) (fun _ => hsp) (fun _ _ _ => hVFx)
                (fun _ hh => absurd hh (by simp)) (fun _ _ => by rw [← hds]; exact hffT)
            · exact rerun_param fs ds true false true false (by simp) hld hexcl hmu hmn
                (fun _ => hsp) (fun hh => absurd hh (by simp)) (fun _ _ _ => hVFx)
                (fun _ hh => absurd hh (by simp)) (fun _ _ => by rw [← hds]; exact hffT)
          · rcases hspd with ⟨hsp, rfl⟩ | ⟨hsp, rfl⟩
            · exact rerun_param fs ds false false true true (by simp) hld hexcl hmu hmn
                (fun hh => absurd hh (by simp)) (fun _ => hsp) (fun _ _ _ => hVFx)
                (fun _ hh => absurd hh (by simp)) (fun _ hh => absurd hh (by simp))
            · exact rerun_param fs ds true false true true (by simp) hld hexcl hmu hmn
                (fun _ => hsp) (fun hh => absurd hh (by simp)) (fun _ _ _ => hVFx)
                (fun _ hh => absurd hh (by simp)) (fun _ hh => absurd hh (by simp))
      · -- dmgAbl fix skipped: dmgAbl already truthy
        have hVFx : truthy (getv (.obj ds) "damageResisted") = false ∨
            truthy (getv (getv (.obj ds) "damageResisted") "dmgAbl") = true := by
          rw [← hds]; exact Or.inr habT
        rcases hd3 with ⟨hafT, rfl⟩ | ⟨hafF, rfl⟩
        · rcases hd4 with ⟨hffT, rfl⟩ | ⟨hffF, rfl⟩
          · rcases hspd with ⟨hsp, rfl⟩ | ⟨hsp, rfl⟩
            · exact rerun_param fs ds false false false false (by simp) hld hexcl hmu hmn
                (fun hh => absurd hh (by simp)) (fun _ => hsp) (fun _ _ _ => hVFx)
                (fun _ _ => by rw [← hds]; exact hafT) (fun _ _ => by rw [← hds]; exact hffT)
            · exact rerun_param fs ds true false false false (by simp) hld hexcl hmu hmn
                (fun _ => hsp) (fun hh => absurd hh (by simp)) (fun _ _ _ => hVFx)
                (fun _ _ => by rw [← hds]; exact hafT) (fun _ _ => by rw [← hds]; exact hffT)
          · rcases hspd with ⟨hsp, rfl⟩ | ⟨hsp, rfl⟩
            · exact rerun_param fs ds false false false true (by simp) hld hexcl hmu hmn
                (fun hh => absurd hh (by simp)) (fun _ => hsp) (fun _ _ _ => hVFx)
                (fun _ _ => by rw [← hds]; exact hafT) (fun _ hh => absurd hh (by simp))
            · exact rerun_param fs ds true false false true (by simp) hld hexcl hmu hmn
                (fun _ => hsp) (fun hh => absurd hh (by simp)) (fun _ _ _ => hVFx)
                (fun _ _ => by rw [← hds]; exact hafT) (fun _ hh => absurd hh (by simp))
        · rcases hd4 with ⟨hffT, rfl⟩ | ⟨hffF, rfl⟩
          · rcases hspd with ⟨hsp, rfl⟩ | ⟨hsp, rfl⟩
            · exact rerun_param fs ds false false true false (by simp) hld hexcl hmu hmn
                (fun hh => absurd hh (by simp)) (fun _ => hsp) (fun _ _ _ => hVFx)
                (fun _ hh => absurd hh (by simp)) (fun _ _ => by rw [← hds]; exact hffT)
            · exact rerun_param fs ds true false true false (by simp) hld hexcl hmu hmn
                (fun _ => hsp) (fun hh => absurd hh (by simp)) (fun _ _ _ => hVFx)
                (fun _ hh => absurd hh (by simp)) (fun _ _ => by rw [← hds]; exact hffT)
          · rcases hspd with ⟨hsp, rfl⟩ | ⟨hsp, rfl⟩
            · exact rerun_param fs ds false false true true (by simp) hld hexcl hmu hmn
                (fun hh => absurd hh (by simp)) (fun _ => hsp) (fun _ _ _ => hVFx)
                (fun _ hh => absurd hh (by simp)) (fun _ hh => absurd hh (by simp))
            · exact rerun_param fs ds true false true true (by simp) hld hexcl hmu hmn
                (fun _ => hsp) (fun hh => absurd hh (by simp)) (fun _ _ _ => hVFx)
                (fun _ hh => absurd hh (by simp)) (fun _ hh => absurd hh (by simp))
      · -- dmgAbl fix fired
        rcases hd3 with ⟨hafT, rfl⟩ | ⟨hafF, rfl⟩
        · -- ablFatigue bundle skipped
          rcases hd4 with ⟨hffT, rfl⟩ | ⟨hffF, rfl⟩
          · rcases hspd with ⟨hsp, rfl⟩ | ⟨hsp, rfl⟩
            · exact rerun_param fs ds false true false false (by simp) hld hexcl hmu hmn
                (fun hh => absurd hh (by simp)) (fun _ => hsp)
                (fun _ hh _ => absurd hh (by simp))
                (fun _ _ => by rw [← hds]; exact hafT) (fun _ _ => by rw [← hds]; exact hffT)
            · exact rerun_param fs ds true true false false (by simp) hld hexcl hmu hmn
                (fun _ => hsp) (fun hh => absurd hh (by simp))
                (fun _ hh _ => absurd hh (by simp))
                (fun _ _ => by rw [← hds]; exact hafT) (fun _ _ => by rw [← hds]; exact hffT)
          · rcases hspd with ⟨hsp, rfl⟩ | ⟨hsp, rfl⟩
            · exact rerun_param fs ds false true false true (by simp) hld hexcl hmu hmn
                (fun hh => absurd hh (by simp)) (fun _ => hsp)
                (fun _ hh _ => absurd hh (by simp))
                (fun _ _ => by rw [← hds]; exact hafT) (fun _ hh => absurd hh (by simp))
            · exact rerun_param fs ds true true false true (by simp) hld hexcl hmu hmn
                (fun _ => hsp) (fun hh => absurd hh (by simp))
                (fun _ hh _ => absurd hh (by simp))
                (fun _ _ => by rw [← hds]; exact hafT) (fun _ hh => absurd hh (by simp))
        · -- both the dmgAbl fix and the bundle fired: the collision
          -- hypothesis rules this out
          exfalso
          rcases hcl with hc | hc
          · have hfire := addItemValid_fire (.obj fs) [] (by simp) (by simp) hpow hdu2 hdn2
              hdrT habF
            have heq := hc.symm.trans hfire
            simp [setKey, setField] at heq
          · have hfire := addExtraPowerData_fire (.obj fs) [] (by simp) (by simp) hpow hdu3 hdn3
              hafF
            have heq := hc.symm.trans hfire
            simp [setKey, setField] at heq
    · -- non-power item: the three power helpers contribute nothing
      rw [Bool.not_eq_true] at hpow
      rcases hinv2 with ⟨_, _, _, rfl⟩ | ⟨hpow2, _⟩
      · rcases hinv3 with ⟨_, _, _, rfl⟩ | ⟨hpow3, _⟩
        · rcases hinv4 with ⟨_, _, _, rfl⟩ | ⟨hpow4, _⟩
          · rcases hspd with ⟨hsp, rfl⟩ | ⟨hsp, rfl⟩
            · exact rerun_param fs ds false false false false (by simp) hld hexcl hmu hmn
                (fun hh => absurd hh (by simp)) (fun _ => hsp)
                (fun hp _ _ => absurd hp (by simp [hpow]))
                (fun hp _ => absurd hp (by simp [hpow])) (fun hp _ => absurd hp (by simp [hpow]))
            · exact rerun_param fs ds true false false false (by simp) hld hexcl hmu hmn
                (fun _ => hsp) (fun hh => absurd hh (by simp))
                (fun hp _ _ => absurd hp (by simp [hpow]))
                (fun hp _ => absurd hp (by simp [hpow])) (fun hp _ => absurd hp (by simp [hpow]))
          · rw [hpow] at hpow4; cases hpow4
        · rw [hpow] at hpow3; cases hpow3
      · rw [hpow] at hpow2; cases hpow2

/-! ## Actor-level lemmas -/

/-- Every successful run of `_addActorConditions` returns `updateData`
unchanged (the rebuild loop always throws on the misspelled binding). -/
theorem addActorConditions_ok_inv (actor : Value) (u u' : Patch)
    (h : _addActorConditions actor u = .ok u') : u' = u := by
  by_cases hiu : actor = .undefVal
  · subst hiu; simp [_addActorConditions, Value.get, error_bind] at h
  by_cases hin : actor = .null
  · subst hin; simp [_addActorConditions, Value.get, error_bind] at h
  simp only [_addActorConditions] at h
  rw [get_eq_ok _ _ hiu hin, ok_bind] at h
  by_cases hch : isStr (getv actor "type") "char" = true
  · rw [if_neg (by simp [hch]), get_eq_ok _ _ hiu hin, ok_bind] at h
    by_cases hdu : getv actor "data" = .undefVal
    · rw [hdu] at h; simp [Value.get, error_bind] at h
    by_cases hdn : getv actor "data" = .null
    · rw [hdn] at h; simp [Value.get, error_bind] at h
    rw [get_eq_ok _ _ hdu hdn, ok_bind] at h
    by_cases hc : truthy (getv (getv actor "data") "conditions") = true
    · rw [if_pos hc] at h
      by_cases ht : typeofObject (getv (getv actor "data") "conditions") = true
      · rw [if_pos ht] at h
        by_cases hcomp : conditionsList.all (fun c => hasOwn (getv (getv actor "data") "conditions") c) = true
        · simp only [hcomp, if_true, pure_ok] at h
          exact ((Except.ok.injEq _ _).mp h).symm
        · simp only [hcomp, if_false, pure_ok] at h
          exact ((Except.ok.injEq _ _).mp h).symm
      · rw [if_neg ht] at h
        cases h
    · rw [if_neg hc] at h
      cases h
  · rw [Bool.not_eq_true] at hch
    rw [if_pos (by simp [hch]), pure_ok] at h
    exact ((Except.ok.injEq _ _).mp h).symm

/-- Every successful run of `_addVehicleCustomDmg` returns `updateData`
unchanged (for a vehicle the unquoted identifier always throws). -/
theorem addVehicleCustomDmg_ok_inv (actor : Value) (u u' : Patch)
    (h : _addVehicleCustomDmg actor u = .ok u') : u' = u := by
  by_cases hiu : actor = .undefVal
  · subst hiu; simp [_addVehicleCustomDmg, Value.get, error_bind] at h
  by_cases hin : actor = .null
  · subst hin; simp [_addVehicleCustomDmg, Value.get, error_bind] at h
  simp only [_addVehicleCustomDmg] at h
  rw [get_eq_ok _ _ hiu hin, ok_bind] at h
  by_cases hveh : isStr (getv actor "type") "vehicle" = true
  · rw [if_neg (by simp [hveh]), get_eq_ok _ _ hiu hin, ok_bind] at h
    by_cases hdu : getv actor "data" = .undefVal
    · rw [hdu] at h; simp [Value.get, error_bind] at h
    by_cases hdn : getv actor "data" = .null
    · rw [hdn] at h; simp [Value.get, error_bind] at h
    rw [get_eq_ok _ _ hdu hdn, ok_bind] at h
    cases h
  · rw [Bool.not_eq_true] at hveh
    rw [if_pos (by simp [hveh]), pure_ok] at h
    exact ((Except.ok.injEq _ _).mp h).symm

/-- `_addActorConditions` only reads `actor.type` and `actor.data`. -/
theorem addActorConditions_congr (a a' : Value) (u : Patch)
    (ht : a.get "type" = a'.get "type") (hd : a.get "data" = a'.get "data") :
    _addActorConditions a u = _addActorConditions a' u := by
  simp only [_addActorConditions, ht, hd]

/-- `_addVehicleCustomDmg` only reads `actor.type` and `actor.data`. -/
theorem addVehicleCustomDmg_congr (a a' : Value) (u : Patch)
    (ht : a.get "type" = a'.get "type") (hd : a.get "data" = a'.get "data") :
    _addVehicleCustomDmg a u = _addVehicleCustomDmg a' u := by
  simp only [_addVehicleCustomDmg, ht, hd]

/-- Re-running the owned-item loop on the already-merged item list yields
the same list with no further updates. -/
theorem migrateOwnedItems_all_done (is : List Value) (is' : List Value) (b : Bool)
    (hcl : ∀ i ∈ is, noDmgAblClash i)
    (h : migrateOwnedItems is = .ok (is', b)) :
    migrateOwnedItems is' = .ok (is', false) := by
  induction is generalizing is' b with
  | nil =>
      simp only [migrateOwnedItems] at h
      obtain ⟨rfl, rfl⟩ := Prod.mk.injEq _ _ _ _ |>.mp ((Except.ok.injEq _ _).mp h).symm
      rfl
  | cons i rest ih =>
      simp only [migrateOwnedItems] at h
      cases hu : migrateItemData i with
      | error e => rw [hu, error_bind] at h; cases h
      | ok u =>
      rw [hu, ok_bind] at h
      cases hr : migrateOwnedItems rest with
      | error e => rw [hr, error_bind] at h; cases h
      | ok pr =>
      obtain ⟨rest', hb⟩ := pr
      rw [hr, ok_bind] at h
      have ihr := ih rest' hb (fun j hj => hcl j (List.mem_cons_of_mem _ hj)) hr
      by_cases hue : isObjectEmpty u = true
      · rw [if_pos hue, pure_ok] at h
        obtain ⟨rfl, rfl⟩ := Prod.mk.injEq _ _ _ _ |>.mp ((Except.ok.injEq _ _).mp h).symm
        have hu0 : migrateItemData i = .ok [] := by
          rw [hu]
          simp [isObjectEmpty, List.isEmpty_iff] at hue
          rw [hue]
        simp only [migrateOwnedItems]
        rw [hu0, ok_bind, ihr, ok_bind, if_pos (by rfl), pure_ok]
      · rw [if_neg hue, pure_ok] at h
        obtain ⟨rfl, rfl⟩ := Prod.mk.injEq _ _ _ _ |>.mp ((Except.ok.injEq _ _).mp h).symm
        have hidem := migrateItemData_idem i u hu (hcl i (List.mem_cons_self _ _))
        simp only [migrateOwnedItems]
        rw [hidem, ok_bind, ihr, ok_bind, if_pos (by rfl), pure_ok]

/-- Idempotence of the actor patch computation under the same
collision-freedom condition on the actor's owned items. -/
theorem migrateActorData_idem (a : Value) (p : Patch)
    (h : migrateActorData a = .ok p)
    (hcl : ∀ is, Value.get a "items" = .ok (.arr is) → ∀ i ∈ is, noDmgAblClash i) :
    migrateActorData (applyPatch a p) = .ok [] := by
  have h0 := h
  simp only [migrateActorData] at h
  cases h1 : _addActorConditions a [] with
  | error e => rw [h1, error_bind] at h; cases h
  | ok u1 =>
  rw [h1, ok_bind] at h
  cases h2 : _addVehicleCustomDmg a u1 with
  | error e => rw [h2, error_bind] at h; cases h
  | ok u2 =>
  rw [h2, ok_bind] at h
  obtain rfl : u1 = [] := addActorConditions_ok_inv _ _ _ h1
  obtain rfl : u2 = [] := addVehicleCustomDmg_ok_inv _ _ _ h2
  cases hitems : Value.get a "items" with
  | error e => rw [hitems, error_bind] at h; cases h
  | ok itemsv =>
  rw [hitems, ok_bind] at h
  by_cases htr : truthy itemsv = true
  · rw [if_neg (by simp [htr])] at h
    cases itemsv with
    | arr is =>
        rw [show asArray "actor.items.map is not a function" (.arr is) = .ok is from rfl,
          ok_bind] at h
        cases hoi : migrateOwnedItems is with
        | error e => rw [hoi, error_bind] at h; cases h
        | ok pr =>
        obtain ⟨is', hasUpd⟩ := pr
        rw [hoi, ok_bind] at h
        cases hasUpd with
        | false =>
            rw [if_neg (by simp), pure_ok] at h
            obtain rfl : ([] : Patch) = p := (Except.ok.injEq _ _).mp h
            -- the patch is empty; an actor with an items array is an object
            cases a with
            | obj fs => rw [applyPatch_obj_nil]; exact h0
            | undefVal => simp [Value.get] at hitems
            | null => simp [Value.get] at hitems
            | bool b => simp [Value.get] at hitems
            | num n => simp [Value.get] at hitems
            | str s => simp [Value.get] at hitems
            | arr l => simp [Value.get] at hitems
        | true =>
            rw [if_pos (by rfl), pure_ok] at h
            obtain rfl : setKey [] "items" (.arr is') = p := (Except.ok.injEq _ _).mp h
            -- an actor whose `items` read produced an array is an object
            cases a with
            | undefVal => simp [Value.get] at hitems
            | null => simp [Value.get] at hitems
            | bool b => simp [Value.get] at hitems
            | num n => simp [Value.get] at hitems
            | str s => simp [Value.get] at hitems
            | arr l => simp [Value.get] at hitems
            | obj fs =>
            have hli : lookupField fs "items" = some (.arr is) := by
              simp only [Value.get, Except.ok.injEq] at hitems
              exact getD_eq_of_ne_undef hitems (by simp)
            have happ : applyPatch (.obj fs) (setKey [] "items" (.arr is')) =
                .obj (setField fs "items" (.arr is')) := by
              show deepMerge (Value.obj fs) (expandPatch (setKey [] "items" (.arr is'))) = _
              rw [show expandPatch (setKey [] "items" (.arr is')) =
                  .obj [("items", .arr is')] from rfl]
              rw [deepMerge, mergeList_cons, hli, mergeVal_new_arr, mergeList_nil]
            rw [happ]
            have htype : Value.get (.obj (setField fs "items" (.arr is'))) "type" =
                Value.get (.obj fs) "type" := by
              simp [Value.get, getv, lookupField_setField_ne _ _ _ _ (by decide : "items" ≠ "type")]
            have hdata : Value.get (.obj (setField fs "items" (.arr is'))) "data" =
                Value.get (.obj fs) "data" := by
              simp [Value.get, getv, lookupField_setField_ne _ _ _ _ (by decide : "items" ≠ "data")]
            have hitems' : Value.get (.obj (setField fs "items" (.arr is'))) "items" =
                .ok (.arr is') := by
              simp [Value.get, getv, lookupField_setField_self]
            simp only [migrateActorData]
            rw [addActorConditions_congr _ _ [] htype hdata, h1, ok_bind,
              addVehicleCustomDmg_congr _ _ [] htype hdata, h2, ok_bind,
              hitems', ok_bind, if_neg (by simp [truthy]),
              show asArray "actor.items.map is not a function" (.arr is') = .ok is' from rfl,
              ok_bind, migrateOwnedItems_all_done is is' true (hcl is hitems) hoi, ok_bind,
              if_neg (by simp), pure_ok]
            rfl
    | obj l => simp [truthy] at htr; simp at h; cases h
    | undefVal => simp [truthy] at htr
    | null => simp [truthy] at htr
    | bool b => rw [show truthy (Value.bool b) = b from rfl] at htr; subst htr; cases h
    | num n => cases h
    | str s => cases h
  · rw [Bool.not_eq_true] at htr
    rw [if_pos (by simp [htr]), pure_ok] at h
    obtain rfl : ([] : Patch) = p := (Except.ok.injEq _ _).mp h
    cases a with
    | obj fs => rw [applyPatch_obj_nil]; exact h0
    | undefVal => rfl
    | null => rfl
    | bool b => rfl
    | num n => rfl
    | str s => rfl
    | arr l => rfl

/-! ## Claim theorems -/

/-- C1: the claim says that for a `char` Actor without a conditions mapping
the Actor Patch Function returns a patch establishing the full
`data.conditions` flag set.  The code instead throws: the rebuild loop
writes through the misspelled binding `udpateData`, a ReferenceError, so for
the failing input `{type: "char", data: {}}` no patch is produced at all
(and the code's own flag list has thirteen entries spelling `hindred`). -/
theorem C1_char_conditions_throws :
    migrateActorData (.obj [("type", .str "char"), ("data", .obj [])]) =
      .error (.referenceError "udpateData") := rfl

/-- C2: the claim says a vehicle Actor lacking the two custom damage fields
gets a patch with `data.customSideswipeDmg = 1` and
`data.customCollisionDmg = 1`.  The code instead throws for every vehicle:
`customSideswipeDmg` is an undeclared identifier (the quotes are missing),
so evaluating the `hasOwnProperty` argument raises a ReferenceError on the
failing input `{type: "vehicle", data: {}}`. -/
theorem C2_vehicle_throws :
    migrateActorData (.obj [("type", .str "vehicle"), ("data", .obj [])]) =
      .error (.referenceError "customSideswipeDmg") := rfl

/-- C3 counterexample: on the claim's input `{type: "power", data: {}}` the
Item Patch Function does not return the promised patch — it throws a
TypeError, because `_addItemModSpeed` reads `item.data.itemMods.speed` and
`data.itemMods` is absent. -/
theorem C3_counterexample :
    migrateItemData (.obj [("type", .str "power"), ("data", .obj [])]) =
      .error (.typeError "Cannot read property speed") := rfl

/-- C3 amended: for the Item `{type: "power", data: {itemMods: {}}}` (the
claim's input amended with the `itemMods` mapping the code requires), the
patch contains exactly the speed-modifier default, the full ablFatigue
bundle, and `data.itemForceAbl = "will"`. -/
theorem C3_amended :
    migrateItemData (.obj [("type", .str "power"), ("data", .obj [("itemMods", .obj [])])]) =
      .ok [("data.itemMods.speed", .obj []),
           ("data.itemMods.speed.isActive", .bool false),
           ("data.itemMods.speed.value", .num 0),
           ("data.causeHealing", .bool false),
           ("data.ablFatigue", .str "will"),
           ("data.hasTest", .bool false),
           ("data.testAbl", .str "will"),
           ("data.testFocus", .str ""),
           ("data.damageResisted", .obj []),
           ("data.damageResisted.nrDice", .num 1),
           ("data.damageResisted.diceType", .num 6),
           ("data.damageResisted.extraValue", .num 0),
           ("data.damageResisted.dmgAbl", .str "will"),
           ("data.itemForceAbl", .str "will")] := rfl

/-- C10: for every Item whose subtype is not one of the five excluded ones
and whose `data` has no `itemMods` mapping at all, the Item Patch Function
throws instead of returning: the presence of `data.itemMods` is an
undocumented precondition, and its absence makes the TypeError branch
reachable. -/
theorem C10_itemMods_precondition (fs ds : List (String × Value)) (ty : Value)
    (hty : lookupField fs "type" = some ty)
    (hexcl : isExcludedType ty = false)
    (hld : lookupField fs "data" = some (.obj ds))
    (hmm : lookupField ds "itemMods" = none) :
    migrateItemData (.obj fs) = .error (.typeError "Cannot read property speed") := by
  have hgty : getv (.obj fs) "type" = ty := by simp [getv, hty]
  have hgd : getv (.obj fs) "data" = .obj ds := by simp [getv, hld]
  have hgmm : getv (.obj ds) "itemMods" = .undefVal := by simp [getv, hmm]
  simp only [migrateItemData, _addItemModSpeed]
  rw [get_obj, ok_bind, hgty, if_neg (by simp [hexcl]), get_obj, ok_bind, hgd, get_obj,
    ok_bind, hgmm,
    show Value.get Value.undefVal "speed" = .error (.typeError "Cannot read property speed") from rfl]
  rfl

/-- C10 witness: the Item `{type: "weapon", data: {}}` satisfies the
precondition-violation hypotheses and makes the function throw. -/
theorem C10_witness :
    migrateItemData (.obj [("type", .str "weapon"), ("data", .obj [])]) =
      .error (.typeError "Cannot read property speed") :=
  C10_itemMods_precondition [("type", .str "weapon"), ("data", .obj [])] [] (.str "weapon")
    rfl rfl rfl rfl

/-- C6: subtype gating.  Whenever the Item Patch Function returns normally,
its patch never contains a speed-modifier key for the subtypes
focus/honorifics/relationship/membership/stunts, and never contains any of
the power-only keys for a subtype other than `power`. -/
theorem C6_subtype_gating (item ty : Value) (p : Patch)
    (hty : item.get "type" = .ok ty)
    (hok : migrateItemData item = .ok p) :
    (isExcludedType ty = true →
      "data.itemMods.speed" ∉ p.map Prod.fst ∧
      "data.itemMods.speed.isActive" ∉ p.map Prod.fst ∧
      "data.itemMods.speed.value" ∉ p.map Prod.fst) ∧
    (isStr ty "power" = false → ∀ k ∈ powerOnlyKeys, k ∉ p.map Prod.fst) := by
  have hiu : item ≠ .undefVal := by
    rintro rfl
    rw [show migrateItemData Value.undefVal =
      .error (.typeError "Cannot read property type") from rfl] at hok
    cases hok
  have hin : item ≠ .null := by
    rintro rfl
    rw [show migrateItemData Value.null =
      .error (.typeError "Cannot read property type") from rfl] at hok
    cases hok
  have hgty : getv item "type" = ty := by
    have hh := get_eq_ok item "type" hiu hin
    rw [hty] at hh
    exact ((Except.ok.injEq _ _).mp hh).symm
  simp only [migrateItemData] at hok
  cases h1 : _addItemModSpeed item [] with
  | error e => rw [h1, error_bind] at hok; cases hok
  | ok u1 =>
  rw [h1, ok_bind] at hok
  cases h2 : _addItemValidResistedDmgAbl item u1 with
  | error e => rw [h2, error_bind] at hok; cases hok
  | ok u2 =>
  rw [h2, ok_bind] at hok
  cases h3 : _addExtraPowerData item u2 with
  | error e => rw [h3, error_bind] at hok; cases hok
  | ok u3 =>
  rw [h3, ok_bind] at hok
  cases h4 : _addItemForceAbl item u3 with
  | error e => rw [h4, error_bind] at hok; cases hok
  | ok u4 =>
  rw [h4, ok_bind, pure_ok] at hok
  obtain rfl : u4 = p := (Except.ok.injEq _ _).mp hok
  obtain ⟨fs, rfl, hinv1⟩ := addItemModSpeed_ok_inv item [] u1 h1
  have hinv2 := addItemValid_ok_inv _ u1 u2 h2
  have hinv3 := addExtraPowerData_ok_inv _ u2 u3 h3
  have hinv4 := addItemForceAbl_ok_inv _ u3 u4 h4
  rcases hinv1 with ⟨hexcl, rfl⟩ | ⟨hexcl, ds, hds, hmu, hmn, hspd⟩
  · -- excluded subtype: the three power helpers skip and the patch is empty
    have hpowX := excluded_not_power hexcl
    rcases hinv2 with ⟨_, _, _, rfl⟩ | ⟨hpow2, _⟩
    · rcases hinv3 with ⟨_, _, _, rfl⟩ | ⟨hpow3, _⟩
      · rcases hinv4 with ⟨_, _, _, rfl⟩ | ⟨hpow4, _⟩
        · exact ⟨fun _ => ⟨by simp, by simp, by simp⟩, fun _ k _ => by simp⟩
        · rw [hpowX] at hpow4; cases hpow4
      · rw [hpowX] at hpow3; cases hpow3
    · rw [hpowX] at hpow2; cases hpow2
  · -- non-excluded subtype
    rw [hgty] at hexcl
    refine ⟨fun hexc => (by rw [hexc] at hexcl; cases hexcl), fun hpow1 => ?_⟩
    have hpow1' : isStr (getv (.obj fs) "type") "power" = false := by rw [hgty]; exact hpow1
    rcases hinv2 with ⟨_, _, _, rfl⟩ | ⟨hpow2, _⟩
    · rcases hinv3 with ⟨_, _, _, rfl⟩ | ⟨hpow3, _⟩
      · rcases hinv4 with ⟨_, _, _, rfl⟩ | ⟨hpow4, _⟩
        · rcases hspd with ⟨_, rfl⟩ | ⟨_, rfl⟩
          · intro k _ hk; simp at hk
          · intro k hkmem hk
            simp [setKey, setField] at hk
            rcases hk with rfl | rfl | rfl <;> simp [powerOnlyKeys] at hkmem
        · rw [hpow1'] at hpow4; cases hpow4
      · rw [hpow1'] at hpow3; cases hpow3
    · rw [hpow1'] at hpow2; cases hpow2

/-- C6 witness: for the excluded subtype `focus` the patch is empty and
carries no speed-modifier key. -/
theorem C6_witness :
    "data.itemMods.speed" ∉ (([] : Patch)).map Prod.fst ∧
    "data.itemMods.speed.isActive" ∉ (([] : Patch)).map Prod.fst ∧
    "data.itemMods.speed.value" ∉ (([] : Patch)).map Prod.fst :=
  (C6_subtype_gating (.obj [("type", .str "focus")]) (.str "focus") [] rfl rfl).1 rfl

/-- C4 counterexample: patch computation is not idempotent as claimed.
First, the patch functions can throw, producing no patch at all (the
vehicle Actor `{type: "vehicle", data: {}}`).  Second, even on a normally
returning input — a power Item whose `damageResisted` object lacks `dmgAbl`
and which also lacks `ablFatigue` — the duplicated
`data.damageResisted.dmgAbl` key keeps its early insertion position, the
later `data.damageResisted = {}` entry wipes it during expansion, and the
second run re-adds exactly that key: the re-run patch is non-empty. -/
theorem C4_counterexample :
    (¬ ((do
        let p ← migrateActorData (.obj [("type", .str "vehicle"), ("data", .obj [])])
        migrateActorData (applyPatch (.obj [("type", .str "vehicle"), ("data", .obj [])]) p))
        = Except.ok ([] : Patch))) ∧
    (¬ ((do
        let p ← migrateItemData (.obj [("type", .str "power"),
          ("data", .obj [("itemMods", .obj [("speed", .num 1)]),
            ("damageResisted", .obj [("nrDice", .num 3)])])])
        migrateItemData (applyPatch (.obj [("type", .str "power"),
          ("data", .obj [("itemMods", .obj [("speed", .num 1)]),
            ("damageResisted", .obj [("nrDice", .num 3)])])]) p))
        = Except.ok ([] : Patch))) := by
  constructor
  · intro hcon
    rw [show migrateActorData (.obj [("type", .str "vehicle"), ("data", .obj [])]) =
      .error (.referenceError "customSideswipeDmg") from rfl, error_bind] at hcon
    cases hcon
  · intro hcon
    rw [show migrateItemData (.obj [("type", .str "power"),
      ("data", .obj [("itemMods", .obj [("speed", .num 1)]),
        ("damageResisted", .obj [("nrDice", .num 3)])])]) = .ok
        [("data.damageResisted.dmgAbl", .str "will"),
         ("data.causeHealing", .bool false),
         ("data.ablFatigue", .str "will"),
         ("data.hasTest", .bool false),
         ("data.testAbl", .str "will"),
         ("data.testFocus", .str ""),
         ("data.damageResisted", .obj []),
         ("data.damageResisted.nrDice", .num 1),
         ("data.damageResisted.diceType", .num 6),
         ("data.damageResisted.extraValue", .num 0),
         ("data.itemForceAbl", .str "will")] from rfl, ok_bind] at hcon
    rw [show applyPatch (.obj [("type", .str "power"),
      ("data", .obj [("itemMods", .obj [("speed", .num 1)]),
        ("damageResisted", .obj [("nrDice", .num 3)])])])
        [("data.damageResisted.dmgAbl", .str "will"),
         ("data.causeHealing", .bool false),
         ("data.ablFatigue", .str "will"),
         ("data.hasTest", .bool false),
         ("data.testAbl", .str "will"),
         ("data.testFocus", .str ""),
         ("data.damageResisted", .obj []),
         ("data.damageResisted.nrDice", .num 1),
         ("data.damageResisted.diceType", .num 6),
         ("data.damageResisted.extraValue", .num 0),
         ("data.itemForceAbl", .str "will")] = .obj [("type", .str "power"),
          ("data", .obj [("itemMods", .obj [("speed", .num 1)]),
            ("damageResisted", .obj [("nrDice", .num 1), ("diceType", .num 6),
              ("extraValue", .num 0)]),
            ("causeHealing", .bool false),
            ("ablFatigue", .str "will"),
            ("hasTest", .bool false),
            ("testAbl", .str "will"),
            ("testFocus", .str ""),
            ("itemForceAbl", .str "will")])] by
      rw [applyPatch, show expandPatch
          [("data.damageResisted.dmgAbl", .str "will"),
           ("data.causeHealing", .bool false),
           ("data.ablFatigue", .str "will"),
           ("data.hasTest", .bool false),
           ("data.testAbl", .str "will"),
           ("data.testFocus", .str ""),
           ("data.damageResisted", .obj []),
           ("data.damageResisted.nrDice", .num 1),
           ("data.damageResisted.diceType", .num 6),
           ("data.damageResisted.extraValue", .num 0),
           ("data.itemForceAbl", .str "will")] =
          .obj [("data", .obj [
            ("damageResisted", .obj [("nrDice", .num 1), ("diceType", .num 6),
              ("extraValue", .num 0)]),
            ("causeHealing", .bool false),
            ("ablFatigue", .str "will"),
            ("hasTest", .bool false),
            ("testAbl", .str "will"),
            ("testFocus", .str ""),
            ("itemForceAbl", .str "will")])] from rfl]
      simp [deepMerge, mergeList_cons, mergeList_nil, mergeVal_obj_obj, mergeVal_new_str,
        mergeVal_new_bool, mergeVal_new_num, lookupField, setField]] at hcon
    rw [show migrateItemData (.obj [("type", .str "power"),
      ("data", .obj [("itemMods", .obj [("speed", .num 1)]),
        ("damageResisted", .obj [("nrDice", .num 1), ("diceType", .num 6),
          ("extraValue", .num 0)]),
        ("causeHealing", .bool false),
        ("ablFatigue", .str "will"),
        ("hasTest", .bool false),
        ("testAbl", .str "will"),
        ("testFocus", .str ""),
        ("itemForceAbl", .str "will")])]) =
        .ok [("data.damageResisted.dmgAbl", .str "will")] from rfl] at hcon
    cases hcon

/-- C4 amended: re-running the patch function against the merged record
yields an empty patch for every Actor or Item record on which the first run
returns normally, provided no item involved (the record itself, or an owned
item of the Actor) fires both the `damageResisted.dmgAbl` fix and the
`ablFatigue` bundle in that first run (the key collision exhibited by the
counterexample). -/
theorem C4_idempotent_amended (a : Value) (p : Patch) :
    (migrateActorData a = .ok p →
      (∀ is, Value.get a "items" = .ok (.arr is) → ∀ i ∈ is, noDmgAblClash i) →
      migrateActorData (applyPatch a p) = .ok []) ∧
    (migrateItemData a = .ok p → noDmgAblClash a →
      migrateItemData (applyPatch a p) = .ok []) :=
  ⟨fun h hcl => migrateActorData_idem a p h hcl,
   fun h hcl => migrateItemData_idem a p h hcl⟩

/-- C4 witness: a char Actor with a conditions object and a power Item
needing the full default bundle both re-run to an empty patch. -/
theorem C4_witness :
    migrateActorData (applyPatch
      (.obj [("type", .str "char"),
        ("data", .obj [("conditions", .obj [("blinded", .bool true)])])]) []) = .ok [] ∧
    migrateItemData (applyPatch
      (.obj [("type", .str "power"), ("data", .obj [("itemMods", .obj [])])])
      [("data.itemMods.speed", .obj []),
       ("data.itemMods.speed.isActive", .bool false),
       ("data.itemMods.speed.value", .num 0),
       ("data.causeHealing", .bool false),
       ("data.ablFatigue", .str "will"),
       ("data.hasTest", .bool false),
       ("data.testAbl", .str "will"),
       ("data.testFocus", .str ""),
       ("data.damageResisted", .obj []),
       ("data.damageResisted.nrDice", .num 1),
       ("data.damageResisted.diceType", .num 6),
       ("data.damageResisted.extraValue", .num 0),
       ("data.damageResisted.dmgAbl", .str "will"),
       ("data.itemForceAbl", .str "will")]) = .ok [] :=
  ⟨(C4_idempotent_amended (.obj [("type", .str "char"),
      ("data", .obj [("conditions", .obj [("blinded", .bool true)])])]) []).1 rfl
      (fun is his => absurd his (by simp [Value.get, lookupField])),
   (C4_idempotent_amended (.obj [("type", .str "power"),
      ("data", .obj [("itemMods", .obj [])])]) _).2 rfl (Or.inl rfl)⟩

/-- A successful token map acts pointwise. -/
theorem mapTokens_get (f : Value → Except JSError Value) (ts ts' : List Value)
    (h : mapTokens f ts = .ok ts') (i : Nat) (t : Value) (ht : ts.get? i = some t) :
    ∃ r, f t = .ok r ∧ ts'.get? i = some r := by
  induction ts generalizing ts' i with
  | nil => simp [List.get?] at ht
  | cons a rest ih =>
      simp only [mapTokens] at h
      cases hf : f a with
      | error e => rw [hf, error_bind] at h; cases h
      | ok r =>
      rw [hf, ok_bind] at h
      cases hr : mapTokens f rest with
      | error e => rw [hr, error_bind] at h; cases h
      | ok rs =>
      rw [hr, ok_bind, pure_ok] at h
      obtain rfl : r :: rs = ts' := (Except.ok.injEq _ _).mp h
      cases i with
      | zero =>
          simp only [List.get?, Option.some.injEq] at ht
          subst ht
          exact ⟨r, hf, rfl⟩
      | succ j =>
          simp only [List.get?] at ht
          obtain ⟨w, hw, hw'⟩ := ih rs hr j ht
          exact ⟨w, hw, hw'⟩

/-- C7 counterexample: a token with an `actorId`, `actorLink = false` and no
override payload at all does not end up cleared — the Scene Patch Function
throws a TypeError reading `t.actorData.data` and returns no token list. -/
theorem C7_counterexample :
    migrateSceneData (fun _ => false)
      (.obj [("tokens", .arr [.obj [("actorId", .str "a"), ("actorLink", .bool false)]])]) =
      .error (.typeError "Cannot read property data") := rfl

/-- C7 amended: a token with no `actorId`, or with `actorLink` truthy, or —
provided an `actorData` value is actually present (not `undefined`/`null`,
otherwise the function throws as the counterexample shows) — whose
payload lacks a truthy `data`, is returned with `actorData` replaced by an
empty mapping, whenever the Scene Patch Function returns a token list at
all. -/
theorem C7_token_clearing (hasActor : Value → Bool) (scene : Value)
    (ts ts' : List Value) (i : Nat) (t : Value) (fs : List (String × Value))
    (htok : Value.get scene "tokens" = .ok (.arr ts))
    (hres : migrateSceneData hasActor scene = .ok [("tokens", .arr ts')])
    (ht : ts.get? i = some t) (hobj : t = .obj fs)
    (hcond : truthy (getv t "actorId") = false ∨ truthy (getv t "actorLink") = true ∨
      (getv t "actorData" ≠ .undefVal ∧ getv t "actorData" ≠ .null ∧
        truthy (getv (getv t "actorData") "data") = false)) :
    ts'.get? i = some (.obj (setField fs "actorData" (.obj []))) := by
  simp only [migrateSceneData] at hres
  rw [htok, ok_bind,
    show asArray "scene.tokens is not an array" (.arr ts) = .ok ts from rfl, ok_bind] at hres
  cases hmap : mapTokens (migrateToken hasActor) ts with
  | error e => rw [hmap, error_bind] at hres; cases hres
  | ok tsr =>
  rw [hmap, ok_bind, pure_ok] at hres
  have hts : tsr = ts' := by
    have := (Except.ok.injEq _ _).mp hres
    simpa using this
  subst hts
  obtain ⟨r, hrt, hr'⟩ := mapTokens_get _ ts tsr hmap i t ht
  subst hobj
  have hclear : migrateToken hasActor (.obj fs) = .ok (.obj (setField fs "actorData" (.obj []))) := by
    simp only [migrateToken]
    rw [get_obj, ok_bind]
    rcases hcond with hc | hc | hc
    · rw [if_pos (by simp [hc])]
      rfl
    · by_cases haid : truthy (getv (.obj fs) "actorId") = true
      · rw [if_neg (by simp [haid]), get_obj, ok_bind, if_pos hc]
        rfl
      · rw [Bool.not_eq_true] at haid
        rw [if_pos (by simp [haid])]
        rfl
    · obtain ⟨hadu, hadn, hdd⟩ := hc
      by_cases haid : truthy (getv (.obj fs) "actorId") = true
      · rw [if_neg (by simp [haid]), get_obj, ok_bind]
        by_cases hlink : truthy (getv (.obj fs) "actorLink") = true
        · rw [if_pos hlink]
          rfl
        · rw [Bool.not_eq_true] at hlink
          rw [if_neg (by simp [hlink]), get_obj, ok_bind, get_eq_ok _ _ hadu hadn, ok_bind,
            if_pos (by simp [hdd])]
          rfl
      · rw [Bool.not_eq_true] at haid
        rw [if_pos (by simp [haid])]
        rfl
  rw [hclear] at hrt
  obtain rfl : r = .obj (setField fs "actorData" (.obj [])) :=
    ((Except.ok.injEq _ _).mp hrt).symm
  exact hr'

/-- C7 witness: an actor-linked token with a non-trivial override payload is
cleared to an empty mapping. -/
theorem C7_witness :
    [Value.obj [("actorLink", .bool true), ("actorId", .str "a"),
      ("actorData", .obj [])]].get? 0 =
      some (.obj (setField [("actorLink", Value.bool true), ("actorId", Value.str "a"),
        ("actorData", Value.obj [("data", Value.obj [("x", Value.num 1)])])]
        "actorData" (.obj []))) :=
  C7_token_clearing (fun _ => false)
    (.obj [("tokens", .arr [.obj [("actorLink", .bool true), ("actorId", .str "a"),
      ("actorData", .obj [("data", .obj [("x", .num 1)])])]])])
    [.obj [("actorLink", .bool true), ("actorId", .str "a"),
      ("actorData", .obj [("data", .obj [("x", .num 1)])])]]
    [.obj [("actorLink", .bool true), ("actorId", .str "a"), ("actorData", .obj [])]]
    0
    (.obj [("actorLink", .bool true), ("actorId", .str "a"),
      ("actorData", .obj [("data", .obj [("x", .num 1)])])])
    [("actorLink", .bool true), ("actorId", .str "a"),
      ("actorData", .obj [("data", .obj [("x", .num 1)])])]
    rfl rfl rfl rfl (Or.inr (Or.inl rfl))

/-- C5: the emptiness gate.  For each per-entity step of the orchestrator
and the compendium walker, the step performs no host interaction at all —
in particular no `entity.update` and no `pack.updateEntity` write — exactly
when the computed patch is empty. -/
theorem C5_empty_patch_no_write (h : Host) (a i s ent : Entity) (pn ty : String) :
    (processActor h a = [] ↔ migrateActorData a.data = .ok []) ∧
    (processItem h i = [] ↔ migrateItemData i.data = .ok []) ∧
    (processScene h s = [] ↔ migrateSceneData h.hasActor s.data = .ok []) ∧
    (processEntry h pn ty ent = [] ↔ entryPatch h ty ent = .ok []) := by
  refine ⟨?_, ?_, ?_, ?_⟩
  · simp only [processActor]
    cases hm : migrateActorData a.data with
    | error e => simp
    | ok p =>
        by_cases hp : isObjectEmpty p = true
        · have hpe : p = [] := by simpa [isObjectEmpty, List.isEmpty_iff] using hp
          subst hpe
          simp [hp]
        · have hpe : p ≠ [] := by
            intro hc; subst hc; exact hp rfl
          cases hres : h.updateResult a.name p <;> simp [hp, hpe, hres]
  · simp only [processItem]
    cases hm : migrateItemData i.data with
    | error e => simp
    | ok p =>
        by_cases hp : isObjectEmpty p = true
        · have hpe : p = [] := by simpa [isObjectEmpty, List.isEmpty_iff] using hp
          subst hpe
          simp [hp]
        · have hpe : p ≠ [] := by
            intro hc; subst hc; exact hp rfl
          cases hres : h.updateResult i.name p <;> simp [hp, hpe, hres]
  · simp only [processScene]
    cases hm : migrateSceneData h.hasActor s.data with
    | error e => simp
    | ok p =>
        by_cases hp : isObjectEmpty p = true
        · have hpe : p = [] := by simpa [isObjectEmpty, List.isEmpty_iff] using hp
          subst hpe
          simp [hp]
        · have hpe : p ≠ [] := by
            intro hc; subst hc; exact hp rfl
          cases hres : h.updateResult s.name p <;> simp [hp, hpe, hres]
  · simp only [processEntry]
    cases hm : entryPatch h ty ent with
    | error e => simp
    | ok p =>
        by_cases hp : isObjectEmpty p = true
        · have hpe : p = [] := by simpa [isObjectEmpty, List.isEmpty_iff] using hp
          subst hpe
          simp [hp]
        · have hpe : p ≠ [] := by
            intro hc; subst hc; exact hp rfl
          cases hres : h.packUpdateResult pn (setKey p "_id" (.str ent.id)) <;> simp [hp, hpe, hres]

/-- Each element's contribution is an infix of the flattened loop trace. -/
theorem infix_flatMap {α β : Type} (f : α → List β) (l : List α) (a : α) (ha : a ∈ l) :
    f a <:+: l.flatMap f := by
  induction l with
  | nil => cases ha
  | cons b rest ih =>
      rw [List.flatMap_cons]
      rcases List.mem_cons.mp ha with rfl | hmem
      · exact ⟨[], rest.flatMap f, by simp⟩
      · obtain ⟨s, t, hst⟩ := ih hmem
        exact ⟨f b ++ s, t, by rw [← hst]; simp⟩

theorem actors_infix_world (h : Host) (w : World) :
    w.actors.flatMap (processActor h) <:+: migrateWorld h w :=
  ⟨[.notify ("Applying AGE System Migration for version " ++ h.version ++
    ". Please be patient and do not close your game or shut down your server.")],
   w.items.flatMap (processItem h) ++ w.scenes.flatMap (processScene h)
     ++ w.packs.flatMap (fun p =>
        if p.packageName ≠ "world" then []
        else if ¬ supportedEntity p.entity then []
        else migrateCompendium h p)
     ++ [.setSetting "systemMigrationVersion" h.version,
         .notify ("AGE System Migration to version " ++ h.version ++ " completed!")],
   by simp [migrateWorld]⟩

theorem items_infix_world (h : Host) (w : World) :
    w.items.flatMap (processItem h) <:+: migrateWorld h w :=
  ⟨[.notify ("Applying AGE System Migration for version " ++ h.version ++
    ". Please be patient and do not close your game or shut down your server.")]
     ++ w.actors.flatMap (processActor h),
   w.scenes.flatMap (processScene h)
     ++ w.packs.flatMap (fun p =>
        if p.packageName ≠ "world" then []
        else if ¬ supportedEntity p.entity then []
        else migrateCompendium h p)
     ++ [.setSetting "systemMigrationVersion" h.version,
         .notify ("AGE System Migration to version " ++ h.version ++ " completed!")],
   by simp [migrateWorld]⟩

theorem scenes_infix_world (h : Host) (w : World) :
    w.scenes.flatMap (processScene h) <:+: migrateWorld h w :=
  ⟨[.notify ("Applying AGE System Migration for version " ++ h.version ++
    ". Please be patient and do not close your game or shut down your server.")]
     ++ w.actors.flatMap (processActor h) ++ w.items.flatMap (processItem h),
   w.packs.flatMap (fun p =>
        if p.packageName ≠ "world" then []
        else if ¬ supportedEntity p.entity then []
        else migrateCompendium h p)
     ++ [.setSetting "systemMigrationVersion" h.version,
         .notify ("AGE System Migration to version " ++ h.version ++ " completed!")],
   by simp [migrateWorld]⟩

theorem packs_infix_world (h : Host) (w : World) :
    w.packs.flatMap (fun p =>
        if p.packageName ≠ "world" then []
        else if ¬ supportedEntity p.entity then []
        else migrateCompendium h p) <:+: migrateWorld h w :=
  ⟨[.notify ("Applying AGE System Migration for version " ++ h.version ++
    ". Please be patient and do not close your game or shut down your server.")]
     ++ w.actors.flatMap (processActor h) ++ w.items.flatMap (processItem h)
     ++ w.scenes.flatMap (processScene h),
   [.setSetting "systemMigrationVersion" h.version,
    .notify ("AGE System Migration to version " ++ h.version ++ " completed!")],
   by simp [migrateWorld]⟩

/-- C8: per-entity error isolation.  Every enumerated entity's per-entity
trace occurs inside the full run (processing always continues), and when
computing an entity's patch throws, that entity's whole trace is a single
log entry of the exception annotated with the entity name (and the pack for
compendium entries): the error is caught, logged, and swallowed. -/
theorem C8_error_isolation (h : Host) (w : World) :
    (∀ a ∈ w.actors, processActor h a <:+: migrateWorld h w ∧
      ∀ e, migrateActorData a.data = .error e → processActor h a =
        [.logError ("Failed AGE System migration for Actor " ++ a.name ++ ": " ++ e.message)]) ∧
    (∀ i ∈ w.items, processItem h i <:+: migrateWorld h w ∧
      ∀ e, migrateItemData i.data = .error e → processItem h i =
        [.logError ("Failed AGE System migration for Item " ++ i.name ++ ": " ++ e.message)]) ∧
    (∀ s ∈ w.scenes, processScene h s <:+: migrateWorld h w ∧
      ∀ e, migrateSceneData h.hasActor s.data = .error e → processScene h s =
        [.logError ("Failed age-system migration for Scene " ++ s.name ++ ": " ++ e.message)]) ∧
    (∀ pk ∈ w.packs, pk.packageName = "world" → supportedEntity pk.entity = true →
      ∀ ent ∈ pk.content,
        processEntry h pk.collection pk.entity ent <:+: migrateWorld h w ∧
        ∀ e, entryPatch h pk.entity ent = .error e →
          processEntry h pk.collection pk.entity ent =
            [.logError ("Failed age-system system migration for entity " ++ ent.name ++
              " in pack " ++ pk.collection ++ ": " ++ e.message)]) := by
  refine ⟨fun a ha => ⟨?_, fun e he => ?_⟩, fun i hi => ⟨?_, fun e he => ?_⟩,
    fun s hs => ⟨?_, fun e he => ?_⟩, fun pk hpk hwld hsup => fun ent hent => ⟨?_, fun e he => ?_⟩⟩
  · exact (infix_flatMap _ _ _ ha).trans (actors_infix_world h w)
  · simp only [processActor, he]
  · exact (infix_flatMap _ _ _ hi).trans (items_infix_world h w)
  · simp only [processItem, he]
  · exact (infix_flatMap _ _ _ hs).trans (scenes_infix_world h w)
  · simp only [processScene, he]
  · have h1 : processEntry h pk.collection pk.entity ent <:+:
        pk.content.flatMap (processEntry h pk.collection pk.entity) :=
      infix_flatMap _ _ _ hent
    have h2 : pk.content.flatMap (processEntry h pk.collection pk.entity) <:+:
        migrateCompendium h pk :=
      ⟨[.packConfigure pk.collection false, .packMigrate pk.collection],
       [.packConfigure pk.collection pk.locked,
        .logInfo ("Migrated all " ++ pk.entity ++ " entities from Compendium " ++ pk.collection)],
       by simp [migrateCompendium, hsup]⟩
    have h3 : migrateCompendium h pk <:+:
        w.packs.flatMap (fun p =>
          if p.packageName ≠ "world" then []
          else if ¬ supportedEntity p.entity then []
          else migrateCompendium h p) := by
      have hf := infix_flatMap (fun p =>
          if p.packageName ≠ "world" then []
          else if ¬ supportedEntity p.entity then []
          else migrateCompendium h p) w.packs pk hpk
      simpa [hwld, hsup] using hf
    exact ((h1.trans h2).trans h3).trans (packs_infix_world h w)
  · simp only [processEntry, he]

/-- C8 witness: in a world holding one `char` Actor whose migration throws
(the `udpateData` ReferenceError), the actor's trace is inside the run and
consists of exactly the annotated, swallowed error log. -/
theorem C8_witness :
    processActor
      (⟨fun _ _ => .ok (), fun _ _ => .ok (), fun _ => false, "1"⟩ : Host)
      (⟨"Bob", "a1", .obj [("type", .str "char"), ("data", .obj [])]⟩ : Entity) <:+:
      migrateWorld (⟨fun _ _ => .ok (), fun _ _ => .ok (), fun _ => false, "1"⟩ : Host)
        (⟨[⟨"Bob", "a1", .obj [("type", .str "char"), ("data", .obj [])]⟩], [], [], []⟩ : World) ∧
    processActor
      (⟨fun _ _ => .ok (), fun _ _ => .ok (), fun _ => false, "1"⟩ : Host)
      (⟨"Bob", "a1", .obj [("type", .str "char"), ("data", .obj [])]⟩ : Entity) =
      [.logError "Failed AGE System migration for Actor Bob: udpateData is not defined"] := by
  have hc := (C8_error_isolation
    (⟨fun _ _ => .ok (), fun _ _ => .ok (), fun _ => false, "1"⟩ : Host)
    (⟨[⟨"Bob", "a1", .obj [("type", .str "char"), ("data", .obj [])]⟩], [], [], []⟩ : World)).1
    (⟨"Bob", "a1", .obj [("type", .str "char"), ("data", .obj [])]⟩ : Entity)
    (List.mem_singleton.mpr rfl)
  exact ⟨hc.1, hc.2 (.referenceError "udpateData") rfl⟩

/-- The per-entry loop of the compendium walker performs no lock toggles. -/
theorem processEntry_no_configure (h : Host) (pn ty : String) (ent : Entity)
    (ev : Event) (hev : ev ∈ processEntry h pn ty ent) :
    ∀ pk b, ev ≠ .packConfigure pk b := by
  intro pk b
  simp only [processEntry] at hev
  cases hep : entryPatch h ty ent with
  | error e => rw [hep] at hev; simp at hev; subst hev; simp
  | ok p =>
      rw [hep] at hev
      by_cases hp : isObjectEmpty p = true
      · simp [hp] at hev
      · simp only [hp, if_false] at hev
        cases hur : h.packUpdateResult pn (setKey p "_id" (.str ent.id)) with
        | ok u => rw [hur] at hev; simp at hev; rcases hev with rfl | rfl <;> simp
        | error e => rw [hur] at hev; simp at hev; rcases hev with rfl | rfl <;> simp

/-- C9: for a pack of a supported entity type, the compendium walker's
first action is unlocking the pack (`configure locked=false`), it then
delegates the host's own migration, and the final configure action restores
the original lock state recorded before unlocking; no lock toggle happens
in between. -/
theorem C9_lock_restore (h : Host) (p : Pack)
    (hsup : supportedEntity p.entity = true) :
    ∃ mid, migrateCompendium h p =
      .packConfigure p.collection false :: .packMigrate p.collection ::
        (mid ++ [.packConfigure p.collection p.locked,
          .logInfo ("Migrated all " ++ p.entity ++ " entities from Compendium " ++ p.collection)]) ∧
      ∀ ev ∈ mid, ∀ pk b, ev ≠ Event.packConfigure pk b := by
  refine ⟨p.content.flatMap (processEntry h p.collection p.entity), ?_, ?_⟩
  · simp [migrateCompendium, hsup]
  · intro ev hev
    obtain ⟨ent, hent, hin⟩ := List.mem_flatMap.mp hev
    exact processEntry_no_configure h p.collection p.entity ent ev hin

/-- C9 witness: a locked Item pack with one stale entry is unlocked first
and restored to its original locked state at the end. -/
theorem C9_witness :
    ∃ mid, migrateCompendium
      (⟨fun _ _ => .ok (), fun _ _ => .ok (), fun _ => false, "1"⟩ : Host)
      (⟨"world.items", "world", "Item", true,
        [⟨"Blade", "i1", .obj [("type", .str "power"), ("data", .obj [("itemMods", .obj [])])]⟩]⟩ : Pack) =
      .packConfigure "world.items" false :: .packMigrate "world.items" ::
        (mid ++ [.packConfigure "world.items" true,
          .logInfo "Migrated all Item entities from Compendium world.items"]) ∧
      ∀ ev ∈ mid, ∀ pk b, ev ≠ Event.packConfigure pk b :=
  C9_lock_restore
    (⟨fun _ _ => .ok (), fun _ _ => .ok (), fun _ => false, "1"⟩ : Host)
    (⟨"world.items", "world", "Item", true,
      [⟨"Blade", "i1", .obj [("type", .str "power"), ("data", .obj [("itemMods", .obj [])])]⟩]⟩ : Pack)
    rfl

end AgeSystem
